import Mathlib

/-!
# The qpdf JNI bridge (`app/src/main/cpp/qpdf_jni.cpp`)

A shallow embedding of the three native entry points

* `Java_com_yourpackage_QPdfHelper_compressPdf`
* `Java_com_yourpackage_QPdfHelper_compressPdfAggressive`
* `Java_com_yourpackage_QPdfHelper_compressPdfCustom`

and of `throwJavaException`.

The bridge only marshals arguments into calls of two external parties: the
host runtime (`JNIEnv`) and the PDF toolkit (`QPDF`, `QPDFWriter`).  Neither
is part of the translation unit, so

* the host is a record `JNIEnv` holding what the bridge can observe or
  change through it: which classes `FindClass` resolves, the exception the
  bridge has thrown with `ThrowNew`, and the native string buffers handed out
  by `GetStringUTFChars` and given back by `ReleaseStringUTFChars`;
* the toolkit is a parameter `Toolkit` of every entry point: for each toolkit
  call that can raise a `std::exception` it says whether it does (and with
  which `what()` text) and what it does to the file system.  The writer's
  setters only record their argument.

Every toolkit call is appended to a trace (`State.calls`), so that the order
of calls, the document handed to the writer and the writer on which `write()`
is invoked can be read off the outcome of a call.

Outside the model: `GetStringUTFChars` returning `nullptr` (the bridge does
not test for it), and exceptions that are not a `std::exception` (the handler
does not catch them).
-/

namespace QpdfJni

/-! ## Toolkit data -/

/-- Values of the toolkit enumeration passed to `setStreamDataMode`. -/
inductive qpdf_stream_data_e where
  | qpdf_s_uncompress
  | qpdf_s_preserve
  | qpdf_s_compress
  deriving DecidableEq, Repr

/-- Values of the toolkit enumeration passed to `setDecodeLevel`. -/
inductive qpdf_stream_decode_level_e where
  | qpdf_dl_none
  | qpdf_dl_generalized
  | qpdf_dl_specialized
  | qpdf_dl_all
  deriving DecidableEq, Repr

/-- Values of the toolkit enumeration passed to `setObjectStreamMode`. -/
inductive qpdf_object_stream_e where
  | qpdf_o_disable
  | qpdf_o_preserve
  | qpdf_o_generate
  deriving DecidableEq, Repr

open qpdf_stream_data_e qpdf_stream_decode_level_e qpdf_object_stream_e

/-- A PDF dictionary: keys (names such as "/Info") bound to the number of the
object they refer to.  The first binding of a key is the one that counts. -/
abbrev Dictionary := List (String × Nat)

/-- The value bound to `key`, if any (`getKey` / `hasKey` of the toolkit). -/
def Dictionary.getKey (d : Dictionary) (key : String) : Option Nat :=
  match d with
  | [] => none
  | (k, v) :: rest => if k = key then some v else Dictionary.getKey rest key

/-- The dictionary without `key` (`QPDFObjectHandle::removeKey`). -/
def Dictionary.removeKey (d : Dictionary) (key : String) : Dictionary :=
  match d with
  | [] => []
  | (k, v) :: rest =>
    if k = key then Dictionary.removeKey rest key else (k, v) :: Dictionary.removeKey rest key

/-- The in-memory document (`QPDF pdf`): its trailer dictionary and its
numbered objects. -/
structure QPDF where
  trailer : Dictionary
  objects : List (Nat × String)
  deriving DecidableEq, Repr

/-- The statement `pdf.getTrailer().removeKey(key)`: the trailer handle refers
to the document, so the document itself loses the key. -/
def QPDF.removeTrailerKey (pdf : QPDF) (key : String) : QPDF :=
  { pdf with trailer := pdf.trailer.removeKey key }

/-- What has been set on a `QPDFWriter`, one field per setter the bridge uses.
`none` means that the setter has not been called, so that the toolkit's own
default is in force. -/
structure WriterConfig where
  streamDataMode : Option qpdf_stream_data_e
  compressStreams : Option Bool
  recompressFlate : Option Bool
  decodeLevel : Option qpdf_stream_decode_level_e
  objectStreamMode : Option qpdf_object_stream_e
  linearization : Option Bool
  preserveUnreferencedObjects : Option Bool
  minimumPDFVersion : Option String
  deriving DecidableEq, Repr

/-- The configuration of a writer on which no setter has been called. -/
@[simp] def WriterConfig.initial : WriterConfig :=
  { streamDataMode := none, compressStreams := none, recompressFlate := none,
    decodeLevel := none, objectStreamMode := none, linearization := none,
    preserveUnreferencedObjects := none, minimumPDFVersion := none }

/-- A `QPDFWriter writer(pdf, output)`: the document it writes, the file it
targets and what has been set on it. -/
structure QPDFWriter where
  pdf : QPDF
  filename : String
  config : WriterConfig
  deriving DecidableEq, Repr

/-- The files of the device: path and contents. -/
abbrev FileSystem := List (String × String)

/-- The contents of the file at `path`, if there is one. -/
def FileSystem.read (fs : FileSystem) (path : String) : Option String :=
  match fs with
  | [] => none
  | (p, c) :: rest => if p = path then some c else FileSystem.read rest path

/-- The external PDF toolkit.  For a call that raises, the `String` is the
`what()` of the `std::exception`.

* `processFile fs path`: `pdf.processFile(path)`, the loaded document or the
  exception; it only reads.
* `removeKeyFault pdf key`: the exception raised by
  `pdf.getTrailer().removeKey(key)`, if any.
* `openOutput fs pdf path`: the constructor `QPDFWriter(pdf, path)`: the
  exception it raises, if any, and the file system it leaves.
* `write fs w`: `w.write()`: the exception it raises, if any, and the file
  system it leaves. -/
structure Toolkit where
  processFile : FileSystem → String → Except String QPDF
  removeKeyFault : QPDF → String → Option String
  openOutput : FileSystem → QPDF → String → Option String × FileSystem
  write : FileSystem → QPDFWriter → Option String × FileSystem

/-! ## Host data -/

/-- The host environment as far as the bridge touches it. -/
structure JNIEnv where
  /-- the class names that `FindClass` resolves -/
  classes : List String
  /-- the exception the bridge has thrown with `ThrowNew`, pending on the host:
  class and message; `none` when the bridge has thrown nothing -/
  pending : Option (String × String)
  /-- the buffers handed out by `GetStringUTFChars`, latest first -/
  acquired : List String
  /-- the buffers given back with `ReleaseStringUTFChars`, latest first -/
  released : List String
  deriving DecidableEq, Repr

/-- Priorities of the log lines the bridge writes. -/
inductive LogPriority where
  | ANDROID_LOG_DEBUG
  | ANDROID_LOG_ERROR
  deriving DecidableEq, Repr

/-- The log tag of the bridge. -/
def LOG_TAG : String := "QPDF-JNI"

/-- One call into the toolkit, with the exception it raised where it can
raise one. -/
inductive Call where
  | QPDF_ctor
  | processFile (filename : String) (fault : Option String)
  | removeKey (key : String) (fault : Option String)
  | QPDFWriter_ctor (pdf : QPDF) (filename : String) (fault : Option String)
  | setStreamDataMode (mode : qpdf_stream_data_e)
  | setCompressStreams (val : Bool)
  | setRecompressFlate (val : Bool)
  | setDecodeLevel (val : qpdf_stream_decode_level_e)
  | setObjectStreamMode (mode : qpdf_object_stream_e)
  | setLinearization (val : Bool)
  | setPreserveUnreferencedObjects (val : Bool)
  | setMinimumPDFVersion (version : String)
  | write (writer : QPDFWriter) (fault : Option String)
  | QPDFWriter_dtor
  | QPDF_dtor
  deriving DecidableEq, Repr

/-- Everything a call of an entry point can change. -/
structure State where
  env : JNIEnv
  fs : FileSystem
  /-- log lines written, oldest first: priority, tag, text -/
  log : List (LogPriority × String × String)
  /-- toolkit calls made, oldest first -/
  calls : List Call
  deriving DecidableEq, Repr

/-- What an entry point hands back: its `jboolean` and the state it leaves. -/
structure Outcome extends State where
  ret : Bool
  deriving DecidableEq, Repr

/-! ## Host operations -/

/-- The macro `LOGD(...)`. -/
@[simp] def LOGD (s : State) (text : String) : State :=
  { s with log := s.log ++ [(LogPriority.ANDROID_LOG_DEBUG, LOG_TAG, text)] }

/-- The macro `LOGE(...)`. -/
@[simp] def LOGE (s : State) (text : String) : State :=
  { s with log := s.log ++ [(LogPriority.ANDROID_LOG_ERROR, LOG_TAG, text)] }

/-- The call `env->GetStringUTFChars(str, nullptr)`: a native buffer holding
the characters of the host string; the host records that it is out. -/
@[simp] def GetStringUTFChars (s : State) (str : String) : String × State :=
  (str, { s with env := { s.env with acquired := str :: s.env.acquired } })

/-- The call `env->ReleaseStringUTFChars(str, chars)`. -/
@[simp] def ReleaseStringUTFChars (s : State) (_str : String) (chars : String) : State :=
  { s with env := { s.env with released := chars :: s.env.released } }

/-- The call `env->FindClass(name)`: the class, or `none` for `nullptr`. -/
def FindClass (s : State) (name : String) : Option String :=
  if name ∈ s.env.classes then some name else none

/-- The call `env->ThrowNew(cls, message)`. -/
def ThrowNew (s : State) (cls : String) (message : String) : State :=
  { s with env := { s.env with pending := some (cls, message) } }

/-- The helper `throwJavaException(env, message)`. -/
def throwJavaException (s : State) (message : String) : State :=
  match FindClass s "java/lang/Exception" with
  | some exClass => ThrowNew s exClass message
  | none => s

/-! ## Toolkit operations -/

/-- Append a toolkit call to the trace. -/
@[simp] def State.record (s : State) (c : Call) : State :=
  { s with calls := s.calls ++ [c] }

/-- The setter `writer.setStreamDataMode(mode)`. -/
@[simp]
def QPDFWriter.setStreamDataMode (w : QPDFWriter) (mode : qpdf_stream_data_e) : QPDFWriter :=
  { w with config := { w.config with streamDataMode := some mode } }

/-- The setter `writer.setCompressStreams(val)`. -/
@[simp] def QPDFWriter.setCompressStreams (w : QPDFWriter) (val : Bool) : QPDFWriter :=
  { w with config := { w.config with compressStreams := some val } }

/-- The setter `writer.setRecompressFlate(val)`. -/
@[simp] def QPDFWriter.setRecompressFlate (w : QPDFWriter) (val : Bool) : QPDFWriter :=
  { w with config := { w.config with recompressFlate := some val } }

/-- The setter `writer.setDecodeLevel(val)`. -/
@[simp]
def QPDFWriter.setDecodeLevel (w : QPDFWriter) (val : qpdf_stream_decode_level_e) : QPDFWriter :=
  { w with config := { w.config with decodeLevel := some val } }

/-- The setter `writer.setObjectStreamMode(mode)`. -/
@[simp]
def QPDFWriter.setObjectStreamMode (w : QPDFWriter) (mode : qpdf_object_stream_e) : QPDFWriter :=
  { w with config := { w.config with objectStreamMode := some mode } }

/-- The setter `writer.setLinearization(val)`. -/
@[simp] def QPDFWriter.setLinearization (w : QPDFWriter) (val : Bool) : QPDFWriter :=
  { w with config := { w.config with linearization := some val } }

/-- The setter `writer.setPreserveUnreferencedObjects(val)`. -/
@[simp] def QPDFWriter.setPreserveUnreferencedObjects (w : QPDFWriter) (val : Bool) : QPDFWriter :=
  { w with config := { w.config with preserveUnreferencedObjects := some val } }

/-- The setter `writer.setMinimumPDFVersion(version)`. -/
@[simp] def QPDFWriter.setMinimumPDFVersion (w : QPDFWriter) (version : String) : QPDFWriter :=
  { w with config := { w.config with minimumPDFVersion := some version } }

/-- A writer under configuration together with the state: each setter call
of the bridge updates the writer and is appended to the trace. -/
abbrev Configuring := QPDFWriter × State

/-- The statement `writer.setStreamDataMode(mode);`. -/
@[simp] def setStreamDataMode (ws : Configuring) (mode : qpdf_stream_data_e) : Configuring :=
  (ws.1.setStreamDataMode mode, ws.2.record (.setStreamDataMode mode))

/-- The statement `writer.setCompressStreams(val);`. -/
@[simp] def setCompressStreams (ws : Configuring) (val : Bool) : Configuring :=
  (ws.1.setCompressStreams val, ws.2.record (.setCompressStreams val))

/-- The statement `writer.setRecompressFlate(val);`. -/
@[simp] def setRecompressFlate (ws : Configuring) (val : Bool) : Configuring :=
  (ws.1.setRecompressFlate val, ws.2.record (.setRecompressFlate val))

/-- The statement `writer.setDecodeLevel(val);`. -/
@[simp] def setDecodeLevel (ws : Configuring) (val : qpdf_stream_decode_level_e) : Configuring :=
  (ws.1.setDecodeLevel val, ws.2.record (.setDecodeLevel val))

/-- The statement `writer.setObjectStreamMode(mode);`. -/
@[simp] def setObjectStreamMode (ws : Configuring) (mode : qpdf_object_stream_e) : Configuring :=
  (ws.1.setObjectStreamMode mode, ws.2.record (.setObjectStreamMode mode))

/-- The statement `writer.setLinearization(val);`. -/
@[simp] def setLinearization (ws : Configuring) (val : Bool) : Configuring :=
  (ws.1.setLinearization val, ws.2.record (.setLinearization val))

/-- The statement `writer.setPreserveUnreferencedObjects(val);`. -/
@[simp] def setPreserveUnreferencedObjects (ws : Configuring) (val : Bool) : Configuring :=
  (ws.1.setPreserveUnreferencedObjects val, ws.2.record (.setPreserveUnreferencedObjects val))

/-- The statement `writer.setMinimumPDFVersion(version);`. -/
@[simp] def setMinimumPDFVersion (ws : Configuring) (version : String) : Configuring :=
  (ws.1.setMinimumPDFVersion version, ws.2.record (.setMinimumPDFVersion version))

/-! ## The entry points

Each entry point is a `try` block and a `catch (std::exception& e)` handler.
The `try` block is a function of its own that returns either `.ok ()` (the
block reached `return JNI_TRUE`) or `.error e` (an exception with `what()`
equal to `e` left the block), together with the state at that point.  When
control leaves the block, the objects constructed in it (`QPDF pdf`,
`QPDFWriter writer`) go out of scope and their destructors run, latest
first. -/

/-- A Java `int` argument, a 32-bit signed value.  The bridge does no
arithmetic on it, so it is an `Int` and the theorems hold for every `Int`. -/
abbrev jint := Int

/-- A Java `boolean` argument. -/
abbrev jboolean := Bool

/-- The `try` block of `Java_com_yourpackage_QPdfHelper_compressPdf`. -/
def compressPdf_try (tk : Toolkit) (s : State) (inputPath outputPath : String) :
    Except String Unit × State :=
  let (input, s) := GetStringUTFChars s inputPath
  let (output, s) := GetStringUTFChars s outputPath
  let s := LOGD s ("Starting PDF compression: " ++ input ++ " -> " ++ output)
  let s := s.record .QPDF_ctor
  match tk.processFile s.fs input with
  | .error e => (.error e, (s.record (.processFile input (some e))).record .QPDF_dtor)
  | .ok pdf =>
    let s := s.record (.processFile input none)
    match tk.openOutput s.fs pdf output with
    | (some e, fs) =>
      (.error e, ({ s with fs := fs }.record (.QPDFWriter_ctor pdf output (some e))).record
        .QPDF_dtor)
    | (none, fs) =>
      let s := { s with fs := fs }.record (.QPDFWriter_ctor pdf output none)
      let ws : Configuring := ({ pdf := pdf, filename := output, config := .initial }, s)
      let ws := setStreamDataMode ws qpdf_s_compress
      let ws := setCompressStreams ws true
      let ws := setRecompressFlate ws true
      let ws := setDecodeLevel ws qpdf_dl_all
      let ws := setObjectStreamMode ws qpdf_o_generate
      let ws := setLinearization ws true
      let ws := setPreserveUnreferencedObjects ws false
      let ws := setMinimumPDFVersion ws "1.5"
      let (writer, s) := ws
      match tk.write s.fs writer with
      | (some e, fs) =>
        (.error e, (({ s with fs := fs }.record (.write writer (some e))).record
          .QPDFWriter_dtor).record .QPDF_dtor)
      | (none, fs) =>
        let s := { s with fs := fs }.record (.write writer none)
        let s := ReleaseStringUTFChars s inputPath input
        let s := ReleaseStringUTFChars s outputPath output
        let s := LOGD s "Successfully compressed PDF"
        (.ok (), (s.record .QPDFWriter_dtor).record .QPDF_dtor)

/-- The entry point `Java_com_yourpackage_QPdfHelper_compressPdf(env, this,
inputPath, outputPath)`, called on a host `env` and a file system `fs`. -/
def Java_com_yourpackage_QPdfHelper_compressPdf (tk : Toolkit) (env : JNIEnv) (fs : FileSystem)
    (inputPath outputPath : String) : Outcome :=
  match compressPdf_try tk { env := env, fs := fs, log := [], calls := [] }
      inputPath outputPath with
  | (.ok (), s) => { s with ret := true }
  | (.error e, s) =>
    let s := LOGE s ("Error compressing PDF: " ++ e)
    let s := throwJavaException s e
    { s with ret := false }

/-- The `try` block of `Java_com_yourpackage_QPdfHelper_compressPdfAggressive`. -/
def compressPdfAggressive_try (tk : Toolkit) (s : State) (inputPath outputPath : String)
    (imageQuality : jint) : Except String Unit × State :=
  let (input, s) := GetStringUTFChars s inputPath
  let (output, s) := GetStringUTFChars s outputPath
  let s := LOGD s ("Starting aggressive PDF compression: " ++ input ++ " -> " ++ output ++
    " (quality: " ++ toString imageQuality ++ ")")
  let s := s.record .QPDF_ctor
  match tk.processFile s.fs input with
  | .error e => (.error e, (s.record (.processFile input (some e))).record .QPDF_dtor)
  | .ok pdf =>
    let s := s.record (.processFile input none)
    match tk.removeKeyFault pdf "/Info" with
    | some e => (.error e, (s.record (.removeKey "/Info" (some e))).record .QPDF_dtor)
    | none =>
      let pdf := pdf.removeTrailerKey "/Info"
      let s := s.record (.removeKey "/Info" none)
      match tk.openOutput s.fs pdf output with
      | (some e, fs) =>
        (.error e, ({ s with fs := fs }.record (.QPDFWriter_ctor pdf output (some e))).record
          .QPDF_dtor)
      | (none, fs) =>
        let s := { s with fs := fs }.record (.QPDFWriter_ctor pdf output none)
        let ws : Configuring := ({ pdf := pdf, filename := output, config := .initial }, s)
        let ws := setStreamDataMode ws qpdf_s_compress
        let ws := setCompressStreams ws true
        let ws := setRecompressFlate ws true
        let ws := setDecodeLevel ws qpdf_dl_all
        let ws := setObjectStreamMode ws qpdf_o_generate
        let ws := setLinearization ws true
        let ws := setPreserveUnreferencedObjects ws false
        let ws := setMinimumPDFVersion ws "1.5"
        let (writer, s) := ws
        match tk.write s.fs writer with
        | (some e, fs) =>
          (.error e, (({ s with fs := fs }.record (.write writer (some e))).record
            .QPDFWriter_dtor).record .QPDF_dtor)
        | (none, fs) =>
          let s := { s with fs := fs }.record (.write writer none)
          let s := ReleaseStringUTFChars s inputPath input
          let s := ReleaseStringUTFChars s outputPath output
          let s := LOGD s "Successfully compressed PDF aggressively"
          (.ok (), (s.record .QPDFWriter_dtor).record .QPDF_dtor)

/-- The entry point `Java_com_yourpackage_QPdfHelper_compressPdfAggressive(env,
this, inputPath, outputPath, imageQuality)`. -/
def Java_com_yourpackage_QPdfHelper_compressPdfAggressive (tk : Toolkit) (env : JNIEnv)
    (fs : FileSystem) (inputPath outputPath : String) (imageQuality : jint) : Outcome :=
  match compressPdfAggressive_try tk { env := env, fs := fs, log := [], calls := [] }
      inputPath outputPath imageQuality with
  | (.ok (), s) => { s with ret := true }
  | (.error e, s) =>
    let s := LOGE s ("Error compressing PDF aggressively: " ++ e)
    let s := throwJavaException s e
    { s with ret := false }

/-- The `try` block of `Java_com_yourpackage_QPdfHelper_compressPdfCustom`.
The argument `compressionLevel` is not read. -/
def compressPdfCustom_try (tk : Toolkit) (s : State) (inputPath outputPath : String)
    (removeMetadata linearize : jboolean) (_compressionLevel : jint) :
    Except String Unit × State :=
  let (input, s) := GetStringUTFChars s inputPath
  let (output, s) := GetStringUTFChars s outputPath
  let s := LOGD s ("Starting custom PDF compression: " ++ input ++ " -> " ++ output)
  let s := s.record .QPDF_ctor
  match tk.processFile s.fs input with
  | .error e => (.error e, (s.record (.processFile input (some e))).record .QPDF_dtor)
  | .ok pdf =>
    let s := s.record (.processFile input none)
    let removed : Except String QPDF × State :=
      if removeMetadata then
        match tk.removeKeyFault pdf "/Info" with
        | some e => (.error e, s.record (.removeKey "/Info" (some e)))
        | none =>
          (.ok (pdf.removeTrailerKey "/Info"),
            LOGD (s.record (.removeKey "/Info" none)) "Removed metadata and unused resources")
      else (.ok pdf, s)
    match removed with
    | (.error e, s) => (.error e, s.record .QPDF_dtor)
    | (.ok pdf, s) =>
      match tk.openOutput s.fs pdf output with
      | (some e, fs) =>
        (.error e, ({ s with fs := fs }.record (.QPDFWriter_ctor pdf output (some e))).record
          .QPDF_dtor)
      | (none, fs) =>
        let s := { s with fs := fs }.record (.QPDFWriter_ctor pdf output none)
        let ws : Configuring := ({ pdf := pdf, filename := output, config := .initial }, s)
        let ws := setStreamDataMode ws qpdf_s_compress
        let ws := setCompressStreams ws true
        let ws := setRecompressFlate ws true
        let ws := setDecodeLevel ws qpdf_dl_all
        let ws := setObjectStreamMode ws qpdf_o_generate
        let ws := setPreserveUnreferencedObjects ws false
        let ws := setMinimumPDFVersion ws "1.5"
        let ws : Configuring :=
          if linearize then
            let ws := setLinearization ws true
            (ws.1, LOGD ws.2 "Enabled linearization")
          else ws
        let (writer, s) := ws
        match tk.write s.fs writer with
        | (some e, fs) =>
          (.error e, (({ s with fs := fs }.record (.write writer (some e))).record
            .QPDFWriter_dtor).record .QPDF_dtor)
        | (none, fs) =>
          let s := { s with fs := fs }.record (.write writer none)
          let s := ReleaseStringUTFChars s inputPath input
          let s := ReleaseStringUTFChars s outputPath output
          let s := LOGD s "Successfully compressed PDF with custom settings"
          (.ok (), (s.record .QPDFWriter_dtor).record .QPDF_dtor)

/-- The entry point `Java_com_yourpackage_QPdfHelper_compressPdfCustom(env,
this, inputPath, outputPath, removeMetadata, linearize, compressionLevel)`. -/
def Java_com_yourpackage_QPdfHelper_compressPdfCustom (tk : Toolkit) (env : JNIEnv)
    (fs : FileSystem) (inputPath outputPath : String) (removeMetadata linearize : jboolean)
    (compressionLevel : jint) : Outcome :=
  match compressPdfCustom_try tk { env := env, fs := fs, log := [], calls := [] }
      inputPath outputPath removeMetadata linearize compressionLevel with
  | (.ok (), s) => { s with ret := true }
  | (.error e, s) =>
    let s := LOGE s ("Error compressing PDF: " ++ e)
    let s := throwJavaException s e
    { s with ret := false }

/-! ## Reading an outcome -/

/-- The exception a toolkit call raised, if it raised one. -/
@[simp] def Call.fault : Call → Option String
  | .processFile _ f => f
  | .removeKey _ f => f
  | .QPDFWriter_ctor _ _ f => f
  | .write _ f => f
  | _ => none

/-- The first exception raised by a toolkit call of the trace. -/
@[simp] def raised : List Call → Option String
  | [] => none
  | c :: rest =>
    match c.fault with
    | some e => some e
    | none => raised rest

/-- The documents handed to the writer constructor, in order, whether or not
the constructor raised. -/
@[simp] def handedToWriter : List Call → List QPDF
  | [] => []
  | .QPDFWriter_ctor pdf _ _ :: rest => pdf :: handedToWriter rest
  | _ :: rest => handedToWriter rest

/-- The writers on which `write()` was invoked, in order, whether or not the
call raised. -/
@[simp] def written : List Call → List QPDFWriter
  | [] => []
  | .write w _ :: rest => w :: written rest
  | _ :: rest => written rest

/-- The setter calls of the trace, in order. -/
@[simp] def setterCalls : List Call → List Call
  | [] => []
  | c :: rest =>
    match c with
    | .setStreamDataMode _ | .setCompressStreams _ | .setRecompressFlate _ | .setDecodeLevel _
    | .setObjectStreamMode _ | .setLinearization _ | .setPreserveUnreferencedObjects _
    | .setMinimumPDFVersion _ => c :: setterCalls rest
    | _ => setterCalls rest

/-- The number of `QPDF` documents constructed and not yet destroyed at the
end of the trace. -/
def liveDocuments (calls : List Call) : Int :=
  (calls.count .QPDF_ctor : Int) - (calls.count .QPDF_dtor : Int)

/-! ## Sample data

A device with one PDF on it, a host that resolves `java/lang/Exception`, and
toolkits with the behaviours the theorems are instantiated on. -/

/-- A document with a metadata entry in its trailer. -/
def sampleDocument : QPDF :=
  { trailer := [("/Root", 1), ("/Info", 2), ("/Size", 3)],
    objects := [(1, "<< /Type /Catalog >>"), (2, "<< /Title (Report) >>")] }

/-- A device holding `in.pdf` and an earlier `out.pdf`. -/
def sampleFiles : FileSystem :=
  [("in.pdf", "%PDF-1.4 original"), ("out.pdf", "%PDF-1.4 earlier output")]

/-- A host that resolves `java/lang/Exception`, with nothing pending. -/
def sampleHost : JNIEnv :=
  { classes := ["java/lang/Exception"], pending := none, acquired := [], released := [] }

/-- A toolkit that loads `sampleDocument` from every existing file and raises
for a missing one; the writer constructor opens (and so empties) the output
file and `write()` fills it. -/
def plainToolkit : Toolkit :=
  { processFile := fun fs path =>
      match fs.read path with
      | some _ => .ok sampleDocument
      | none => .error ("open " ++ path ++ ": No such file or directory")
    removeKeyFault := fun _ _ => none
    openOutput := fun fs _ path => (none, (path, "") :: fs)
    write := fun fs w => (none, (w.filename, "%PDF-1.5 compressed") :: fs) }

/-- As `plainToolkit`, but `write()` raises after part of the output has been
written. -/
def failingWriteToolkit : Toolkit :=
  { plainToolkit with
    write := fun fs w => (some "write: No space left on device", (w.filename, "%PDF-1.5 part") ::
        fs) }

theorem Dictionary.getKey_removeKey_self (d : Dictionary) (key : String) :
    (d.removeKey key).getKey key = none := by
  induction d with
  | nil => simp [Dictionary.removeKey, Dictionary.getKey]
  | cons kv rest ih =>
    obtain ⟨k, v⟩ := kv
    by_cases h : k = key
    · simp [Dictionary.removeKey, h, ih]
    · simp [Dictionary.removeKey, Dictionary.getKey, h, ih]

theorem Dictionary.getKey_removeKey_of_ne (d : Dictionary) (key k' : String) (hne : k' ≠ key) :
    (d.removeKey key).getKey k' = d.getKey k' := by
  induction d with
  | nil => simp [Dictionary.removeKey]
  | cons kv rest ih =>
    obtain ⟨k, v⟩ := kv
    by_cases h : k = key
    · have hk : ¬ key = k' := fun h' => hne h'.symm
      simp [Dictionary.removeKey, Dictionary.getKey, h, ih, hk]
    · simp [Dictionary.removeKey, Dictionary.getKey, h, ih]

theorem Dictionary.mem_removeKey (d : Dictionary) (key : String) (kv : String × Nat) :
    kv ∈ d.removeKey key ↔ kv ∈ d ∧ kv.1 ≠ key := by
  induction d with
  | nil => simp [Dictionary.removeKey]
  | cons e rest ih =>
    obtain ⟨k, v⟩ := e
    by_cases h : k = key
    · simp only [Dictionary.removeKey, h, if_true, ih, List.mem_cons]
      constructor
      · rintro ⟨h1, h2⟩; exact ⟨Or.inr h1, h2⟩
      · rintro ⟨h1 | h1, h2⟩
        · exact absurd (by rw [h1]) h2
        · exact ⟨h1, h2⟩
    · simp only [Dictionary.removeKey, h, if_false, List.mem_cons, ih]
      constructor
      · rintro (h1 | ⟨h1, h2⟩)
        · exact ⟨Or.inl h1, by rw [h1]; exact h⟩
        · exact ⟨Or.inr h1, h2⟩
      · rintro ⟨h1 | h1, h2⟩
        · exact Or.inl h1
        · exact Or.inr ⟨h1, h2⟩

/-! ## The handler -/

@[simp] theorem throwJavaException_fs (s : State) (message : String) :
    (throwJavaException s message).fs = s.fs := by
  unfold throwJavaException ThrowNew; split <;> rfl

@[simp] theorem throwJavaException_log (s : State) (message : String) :
    (throwJavaException s message).log = s.log := by
  unfold throwJavaException ThrowNew; split <;> rfl

@[simp] theorem throwJavaException_calls (s : State) (message : String) :
    (throwJavaException s message).calls = s.calls := by
  unfold throwJavaException ThrowNew; split <;> rfl

@[simp] theorem throwJavaException_env (s : State) (message : String) :
    (throwJavaException s message).env =
      { s.env with
        pending :=
          if "java/lang/Exception" ∈ s.env.classes then some ("java/lang/Exception", message)
          else s.env.pending } := by
  unfold throwJavaException FindClass ThrowNew
  by_cases h : "java/lang/Exception" ∈ s.env.classes <;> simp [h]

theorem Outcome.ext_fields (a b : Outcome) (h1 : a.env = b.env) (h2 : a.fs = b.fs)
    (h3 : a.log = b.log) (h4 : a.calls = b.calls) (h5 : a.ret = b.ret) : a = b := by
  obtain ⟨⟨_, _, _, _⟩, _⟩ := a
  obtain ⟨⟨_, _, _, _⟩, _⟩ := b
  simp_all

/-! ## The paths through the entry points

One lemma for each way through an entry point: which toolkit call raises, if
any, and the outcome in full. -/

theorem compressPdf_load_raises (tk : Toolkit) (env : JNIEnv) (fs : FileSystem)
    (inputPath outputPath : String)
    (e : String)
    (hload : tk.processFile fs inputPath = .error e) :
    Java_com_yourpackage_QPdfHelper_compressPdf tk env fs inputPath outputPath =
      { env :=
          { classes := env.classes,
            pending :=
              if "java/lang/Exception" ∈ env.classes then some ("java/lang/Exception", e)
              else env.pending,
            acquired := outputPath :: inputPath :: env.acquired,
            released := env.released },
        fs := fs,
        log :=
          [(LogPriority.ANDROID_LOG_DEBUG, LOG_TAG,
             "Starting PDF compression: " ++ inputPath ++ " -> " ++ outputPath),
           (LogPriority.ANDROID_LOG_ERROR, LOG_TAG, "Error compressing PDF: " ++ e)],
        calls :=
          [.QPDF_ctor, .processFile inputPath (some e), .QPDF_dtor],
        ret := false } := by
  apply Outcome.ext_fields <;>
    simp [Java_com_yourpackage_QPdfHelper_compressPdf, compressPdf_try, hload]

theorem compressPdf_open_raises (tk : Toolkit) (env : JNIEnv) (fs : FileSystem)
    (inputPath outputPath : String)
    (pdf : QPDF)
    (e : String)
    (fs1 : FileSystem)
    (hload : tk.processFile fs inputPath = .ok pdf)
    (hopen : tk.openOutput fs pdf outputPath = (some e, fs1)) :
    Java_com_yourpackage_QPdfHelper_compressPdf tk env fs inputPath outputPath =
      { env :=
          { classes := env.classes,
            pending :=
              if "java/lang/Exception" ∈ env.classes then some ("java/lang/Exception", e)
              else env.pending,
            acquired := outputPath :: inputPath :: env.acquired,
            released := env.released },
        fs := fs1,
        log :=
          [(LogPriority.ANDROID_LOG_DEBUG, LOG_TAG,
             "Starting PDF compression: " ++ inputPath ++ " -> " ++ outputPath),
           (LogPriority.ANDROID_LOG_ERROR, LOG_TAG, "Error compressing PDF: " ++ e)],
        calls :=
          [.QPDF_ctor, .processFile inputPath none,
           .QPDFWriter_ctor pdf outputPath (some e), .QPDF_dtor],
        ret := false } := by
  apply Outcome.ext_fields <;>
    simp [Java_com_yourpackage_QPdfHelper_compressPdf, compressPdf_try, hload, hopen]

theorem compressPdf_write_raises (tk : Toolkit) (env : JNIEnv) (fs : FileSystem)
    (inputPath outputPath : String)
    (pdf : QPDF)
    (e : String)
    (fs1 fs2 : FileSystem)
    (hload : tk.processFile fs inputPath = .ok pdf)
    (hopen : tk.openOutput fs pdf outputPath = (none, fs1))
    (hwrite : tk.write fs1
      { pdf := pdf, filename := outputPath,
        config :=
          { streamDataMode := some qpdf_s_compress, compressStreams := some true,
            recompressFlate := some true, decodeLevel := some qpdf_dl_all,
            objectStreamMode := some qpdf_o_generate, linearization := some true,
            preserveUnreferencedObjects := some false,
            minimumPDFVersion := some "1.5" } } = (some e, fs2)) :
    Java_com_yourpackage_QPdfHelper_compressPdf tk env fs inputPath outputPath =
      { env :=
          { classes := env.classes,
            pending :=
              if "java/lang/Exception" ∈ env.classes then some ("java/lang/Exception", e)
              else env.pending,
            acquired := outputPath :: inputPath :: env.acquired,
            released := env.released },
        fs := fs2,
        log :=
          [(LogPriority.ANDROID_LOG_DEBUG, LOG_TAG,
             "Starting PDF compression: " ++ inputPath ++ " -> " ++ outputPath),
           (LogPriority.ANDROID_LOG_ERROR, LOG_TAG, "Error compressing PDF: " ++ e)],
        calls :=
          [.QPDF_ctor, .processFile inputPath none,
           .QPDFWriter_ctor pdf outputPath none,
           .setStreamDataMode qpdf_s_compress, .setCompressStreams true, .setRecompressFlate true,
           .setDecodeLevel qpdf_dl_all, .setObjectStreamMode qpdf_o_generate,
           .setLinearization true, .setPreserveUnreferencedObjects false,
           .setMinimumPDFVersion "1.5",
           .write
             { pdf := pdf, filename := outputPath,
               config :=
                 { streamDataMode := some qpdf_s_compress, compressStreams := some true,
                   recompressFlate := some true, decodeLevel := some qpdf_dl_all,
                   objectStreamMode := some qpdf_o_generate, linearization := some true,
                   preserveUnreferencedObjects := some false,
                   minimumPDFVersion := some "1.5" } } (some e),
           .QPDFWriter_dtor, .QPDF_dtor],
        ret := false } := by
  apply Outcome.ext_fields <;>
    simp [Java_com_yourpackage_QPdfHelper_compressPdf, compressPdf_try, hload, hopen, hwrite]

theorem compressPdf_succeeds (tk : Toolkit) (env : JNIEnv) (fs : FileSystem)
    (inputPath outputPath : String)
    (pdf : QPDF)
    (fs1 fs2 : FileSystem)
    (hload : tk.processFile fs inputPath = .ok pdf)
    (hopen : tk.openOutput fs pdf outputPath = (none, fs1))
    (hwrite : tk.write fs1
      { pdf := pdf, filename := outputPath,
        config :=
          { streamDataMode := some qpdf_s_compress, compressStreams := some true,
            recompressFlate := some true, decodeLevel := some qpdf_dl_all,
            objectStreamMode := some qpdf_o_generate, linearization := some true,
            preserveUnreferencedObjects := some false,
            minimumPDFVersion := some "1.5" } } = (none, fs2)) :
    Java_com_yourpackage_QPdfHelper_compressPdf tk env fs inputPath outputPath =
      { env :=
          { classes := env.classes,
            pending :=
              env.pending,
            acquired := outputPath :: inputPath :: env.acquired,
            released := outputPath :: inputPath :: env.released },
        fs := fs2,
        log :=
          [(LogPriority.ANDROID_LOG_DEBUG, LOG_TAG,
             "Starting PDF compression: " ++ inputPath ++ " -> " ++ outputPath),
           (LogPriority.ANDROID_LOG_DEBUG, LOG_TAG, "Successfully compressed PDF")],
        calls :=
          [.QPDF_ctor, .processFile inputPath none,
           .QPDFWriter_ctor pdf outputPath none,
           .setStreamDataMode qpdf_s_compress, .setCompressStreams true, .setRecompressFlate true,
           .setDecodeLevel qpdf_dl_all, .setObjectStreamMode qpdf_o_generate,
           .setLinearization true, .setPreserveUnreferencedObjects false,
           .setMinimumPDFVersion "1.5",
           .write
             { pdf := pdf, filename := outputPath,
               config :=
                 { streamDataMode := some qpdf_s_compress, compressStreams := some true,
                   recompressFlate := some true, decodeLevel := some qpdf_dl_all,
                   objectStreamMode := some qpdf_o_generate, linearization := some true,
                   preserveUnreferencedObjects := some false,
                   minimumPDFVersion := some "1.5" } } none,
           .QPDFWriter_dtor, .QPDF_dtor],
        ret := true } := by
  apply Outcome.ext_fields <;>
    simp [Java_com_yourpackage_QPdfHelper_compressPdf, compressPdf_try, hload, hopen, hwrite]

theorem compressPdfAggressive_load_raises (tk : Toolkit) (env : JNIEnv) (fs : FileSystem)
    (inputPath outputPath : String) (imageQuality : jint)
    (e : String)
    (hload : tk.processFile fs inputPath = .error e) :
    Java_com_yourpackage_QPdfHelper_compressPdfAggressive tk env fs inputPath outputPath imageQuality =
      { env :=
          { classes := env.classes,
            pending :=
              if "java/lang/Exception" ∈ env.classes then some ("java/lang/Exception", e)
              else env.pending,
            acquired := outputPath :: inputPath :: env.acquired,
            released := env.released },
        fs := fs,
        log :=
          [(LogPriority.ANDROID_LOG_DEBUG, LOG_TAG,
             "Starting aggressive PDF compression: " ++ inputPath ++ " -> " ++ outputPath ++
              " (quality: " ++ toString imageQuality ++ ")"),
           (LogPriority.ANDROID_LOG_ERROR, LOG_TAG, "Error compressing PDF aggressively: " ++ e)],
        calls :=
          [.QPDF_ctor, .processFile inputPath (some e), .QPDF_dtor],
        ret := false } := by
  apply Outcome.ext_fields <;>
    simp [Java_com_yourpackage_QPdfHelper_compressPdfAggressive, compressPdfAggressive_try, hload]

theorem compressPdfAggressive_removal_raises (tk : Toolkit) (env : JNIEnv) (fs : FileSystem)
    (inputPath outputPath : String) (imageQuality : jint)
    (pdf : QPDF)
    (e : String)
    (hload : tk.processFile fs inputPath = .ok pdf)
    (hremove : tk.removeKeyFault pdf "/Info" = some e) :
    Java_com_yourpackage_QPdfHelper_compressPdfAggressive tk env fs inputPath outputPath imageQuality =
      { env :=
          { classes := env.classes,
            pending :=
              if "java/lang/Exception" ∈ env.classes then some ("java/lang/Exception", e)
              else env.pending,
            acquired := outputPath :: inputPath :: env.acquired,
            released := env.released },
        fs := fs,
        log :=
          [(LogPriority.ANDROID_LOG_DEBUG, LOG_TAG,
             "Starting aggressive PDF compression: " ++ inputPath ++ " -> " ++ outputPath ++
              " (quality: " ++ toString imageQuality ++ ")"),
           (LogPriority.ANDROID_LOG_ERROR, LOG_TAG, "Error compressing PDF aggressively: " ++ e)],
        calls :=
          [.QPDF_ctor, .processFile inputPath none, .removeKey "/Info" (some e), .QPDF_dtor],
        ret := false } := by
  apply Outcome.ext_fields <;>
    simp [Java_com_yourpackage_QPdfHelper_compressPdfAggressive,
      compressPdfAggressive_try, hload, hremove]

theorem compressPdfAggressive_open_raises (tk : Toolkit) (env : JNIEnv) (fs : FileSystem)
    (inputPath outputPath : String) (imageQuality : jint)
    (pdf : QPDF)
    (e : String)
    (fs1 : FileSystem)
    (hload : tk.processFile fs inputPath = .ok pdf)
    (hremove : tk.removeKeyFault pdf "/Info" = none)
    (hopen : tk.openOutput fs (pdf.removeTrailerKey "/Info") outputPath = (some e, fs1)) :
    Java_com_yourpackage_QPdfHelper_compressPdfAggressive tk env fs inputPath outputPath imageQuality =
      { env :=
          { classes := env.classes,
            pending :=
              if "java/lang/Exception" ∈ env.classes then some ("java/lang/Exception", e)
              else env.pending,
            acquired := outputPath :: inputPath :: env.acquired,
            released := env.released },
        fs := fs1,
        log :=
          [(LogPriority.ANDROID_LOG_DEBUG, LOG_TAG,
             "Starting aggressive PDF compression: " ++ inputPath ++ " -> " ++ outputPath ++
              " (quality: " ++ toString imageQuality ++ ")"),
           (LogPriority.ANDROID_LOG_ERROR, LOG_TAG, "Error compressing PDF aggressively: " ++ e)],
        calls :=
          [.QPDF_ctor, .processFile inputPath none, .removeKey "/Info" none,
           .QPDFWriter_ctor (pdf.removeTrailerKey "/Info") outputPath (some e), .QPDF_dtor],
        ret := false } := by
  apply Outcome.ext_fields <;>
    simp [Java_com_yourpackage_QPdfHelper_compressPdfAggressive,
      compressPdfAggressive_try, hload, hremove, hopen]

theorem compressPdfAggressive_write_raises (tk : Toolkit) (env : JNIEnv) (fs : FileSystem)
    (inputPath outputPath : String) (imageQuality : jint)
    (pdf : QPDF)
    (e : String)
    (fs1 fs2 : FileSystem)
    (hload : tk.processFile fs inputPath = .ok pdf)
    (hremove : tk.removeKeyFault pdf "/Info" = none)
    (hopen : tk.openOutput fs (pdf.removeTrailerKey "/Info") outputPath = (none, fs1))
    (hwrite : tk.write fs1
      { pdf := (pdf.removeTrailerKey "/Info"), filename := outputPath,
        config :=
          { streamDataMode := some qpdf_s_compress, compressStreams := some true,
            recompressFlate := some true, decodeLevel := some qpdf_dl_all,
            objectStreamMode := some qpdf_o_generate, linearization := some true,
            preserveUnreferencedObjects := some false,
            minimumPDFVersion := some "1.5" } } = (some e, fs2)) :
    Java_com_yourpackage_QPdfHelper_compressPdfAggressive tk env fs inputPath outputPath imageQuality =
      { env :=
          { classes := env.classes,
            pending :=
              if "java/lang/Exception" ∈ env.classes then some ("java/lang/Exception", e)
              else env.pending,
            acquired := outputPath :: inputPath :: env.acquired,
            released := env.released },
        fs := fs2,
        log :=
          [(LogPriority.ANDROID_LOG_DEBUG, LOG_TAG,
             "Starting aggressive PDF compression: " ++ inputPath ++ " -> " ++ outputPath ++
              " (quality: " ++ toString imageQuality ++ ")"),
           (LogPriority.ANDROID_LOG_ERROR, LOG_TAG, "Error compressing PDF aggressively: " ++ e)],
        calls :=
          [.QPDF_ctor, .processFile inputPath none, .removeKey "/Info" none,
           .QPDFWriter_ctor (pdf.removeTrailerKey "/Info") outputPath none,
           .setStreamDataMode qpdf_s_compress, .setCompressStreams true, .setRecompressFlate true,
           .setDecodeLevel qpdf_dl_all, .setObjectStreamMode qpdf_o_generate,
           .setLinearization true, .setPreserveUnreferencedObjects false,
           .setMinimumPDFVersion "1.5",
           .write
             { pdf := (pdf.removeTrailerKey "/Info"), filename := outputPath,
               config :=
                 { streamDataMode := some qpdf_s_compress, compressStreams := some true,
                   recompressFlate := some true, decodeLevel := some qpdf_dl_all,
                   objectStreamMode := some qpdf_o_generate, linearization := some true,
                   preserveUnreferencedObjects := some false,
                   minimumPDFVersion := some "1.5" } } (some e),
           .QPDFWriter_dtor, .QPDF_dtor],
        ret := false } := by
  apply Outcome.ext_fields <;>
    simp [Java_com_yourpackage_QPdfHelper_compressPdfAggressive,
      compressPdfAggressive_try, hload, hremove, hopen, hwrite]

theorem compressPdfAggressive_succeeds (tk : Toolkit) (env : JNIEnv) (fs : FileSystem)
    (inputPath outputPath : String) (imageQuality : jint)
    (pdf : QPDF)
    (fs1 fs2 : FileSystem)
    (hload : tk.processFile fs inputPath = .ok pdf)
    (hremove : tk.removeKeyFault pdf "/Info" = none)
    (hopen : tk.openOutput fs (pdf.removeTrailerKey "/Info") outputPath = (none, fs1))
    (hwrite : tk.write fs1
      { pdf := (pdf.removeTrailerKey "/Info"), filename := outputPath,
        config :=
          { streamDataMode := some qpdf_s_compress, compressStreams := some true,
            recompressFlate := some true, decodeLevel := some qpdf_dl_all,
            objectStreamMode := some qpdf_o_generate, linearization := some true,
            preserveUnreferencedObjects := some false,
            minimumPDFVersion := some "1.5" } } = (none, fs2)) :
    Java_com_yourpackage_QPdfHelper_compressPdfAggressive tk env fs inputPath outputPath imageQuality =
      { env :=
          { classes := env.classes,
            pending :=
              env.pending,
            acquired := outputPath :: inputPath :: env.acquired,
            released := outputPath :: inputPath :: env.released },
        fs := fs2,
        log :=
          [(LogPriority.ANDROID_LOG_DEBUG, LOG_TAG,
             "Starting aggressive PDF compression: " ++ inputPath ++ " -> " ++ outputPath ++
              " (quality: " ++ toString imageQuality ++ ")"),
           (LogPriority.ANDROID_LOG_DEBUG, LOG_TAG, "Successfully compressed PDF aggressively")],
        calls :=
          [.QPDF_ctor, .processFile inputPath none, .removeKey "/Info" none,
           .QPDFWriter_ctor (pdf.removeTrailerKey "/Info") outputPath none,
           .setStreamDataMode qpdf_s_compress, .setCompressStreams true, .setRecompressFlate true,
           .setDecodeLevel qpdf_dl_all, .setObjectStreamMode qpdf_o_generate,
           .setLinearization true, .setPreserveUnreferencedObjects false,
           .setMinimumPDFVersion "1.5",
           .write
             { pdf := (pdf.removeTrailerKey "/Info"), filename := outputPath,
               config :=
                 { streamDataMode := some qpdf_s_compress, compressStreams := some true,
                   recompressFlate := some true, decodeLevel := some qpdf_dl_all,
                   objectStreamMode := some qpdf_o_generate, linearization := some true,
                   preserveUnreferencedObjects := some false,
                   minimumPDFVersion := some "1.5" } } none,
           .QPDFWriter_dtor, .QPDF_dtor],
        ret := true } := by
  apply Outcome.ext_fields <;>
    simp [Java_com_yourpackage_QPdfHelper_compressPdfAggressive,
      compressPdfAggressive_try, hload, hremove, hopen, hwrite]

theorem compressPdfCustom_load_raises (tk : Toolkit) (env : JNIEnv) (fs : FileSystem)
    (inputPath outputPath : String) (removeMetadata linearize : jboolean)
    (compressionLevel : jint)
    (e : String)
    (hload : tk.processFile fs inputPath = .error e) :
    Java_com_yourpackage_QPdfHelper_compressPdfCustom tk env fs inputPath outputPath
      removeMetadata linearize compressionLevel =
      { env :=
          { classes := env.classes,
            pending :=
              if "java/lang/Exception" ∈ env.classes then some ("java/lang/Exception", e)
              else env.pending,
            acquired := outputPath :: inputPath :: env.acquired,
            released := env.released },
        fs := fs,
        log :=
          [(LogPriority.ANDROID_LOG_DEBUG, LOG_TAG,
             "Starting custom PDF compression: " ++ inputPath ++ " -> " ++ outputPath),
           (LogPriority.ANDROID_LOG_ERROR, LOG_TAG, "Error compressing PDF: " ++ e)],
        calls :=
          [.QPDF_ctor, .processFile inputPath (some e), .QPDF_dtor],
        ret := false } := by
  apply Outcome.ext_fields <;>
    simp [Java_com_yourpackage_QPdfHelper_compressPdfCustom, compressPdfCustom_try, hload]

theorem compressPdfCustom_removal_raises (tk : Toolkit) (env : JNIEnv) (fs : FileSystem)
    (inputPath outputPath : String) (removeMetadata linearize : jboolean)
    (compressionLevel : jint)
    (pdf : QPDF)
    (e : String)
    (hload : tk.processFile fs inputPath = .ok pdf)
    (hflag : removeMetadata = true)
    (hremove : tk.removeKeyFault pdf "/Info" = some e) :
    Java_com_yourpackage_QPdfHelper_compressPdfCustom tk env fs inputPath outputPath
      removeMetadata linearize compressionLevel =
      { env :=
          { classes := env.classes,
            pending :=
              if "java/lang/Exception" ∈ env.classes then some ("java/lang/Exception", e)
              else env.pending,
            acquired := outputPath :: inputPath :: env.acquired,
            released := env.released },
        fs := fs,
        log :=
          [(LogPriority.ANDROID_LOG_DEBUG, LOG_TAG,
             "Starting custom PDF compression: " ++ inputPath ++ " -> " ++ outputPath),
           (LogPriority.ANDROID_LOG_ERROR, LOG_TAG, "Error compressing PDF: " ++ e)],
        calls :=
          [.QPDF_ctor, .processFile inputPath none, .removeKey "/Info" (some e), .QPDF_dtor],
        ret := false } := by
  cases removeMetadata <;> cases linearize <;> apply Outcome.ext_fields <;>
    simp_all [Java_com_yourpackage_QPdfHelper_compressPdfCustom,
      compressPdfCustom_try, hload, hflag, hremove]

theorem compressPdfCustom_open_raises (tk : Toolkit) (env : JNIEnv) (fs : FileSystem)
    (inputPath outputPath : String) (removeMetadata linearize : jboolean)
    (compressionLevel : jint)
    (pdf : QPDF)
    (e : String)
    (fs1 : FileSystem)
    (hload : tk.processFile fs inputPath = .ok pdf)
    (hremove : removeMetadata = true → tk.removeKeyFault pdf "/Info" = none)
    (hopen : tk.openOutput fs
      (if removeMetadata then pdf.removeTrailerKey "/Info" else pdf) outputPath = (some e, fs1)) :
    Java_com_yourpackage_QPdfHelper_compressPdfCustom tk env fs inputPath outputPath
      removeMetadata linearize compressionLevel =
      { env :=
          { classes := env.classes,
            pending :=
              if "java/lang/Exception" ∈ env.classes then some ("java/lang/Exception", e)
              else env.pending,
            acquired := outputPath :: inputPath :: env.acquired,
            released := env.released },
        fs := fs1,
        log :=
          [(LogPriority.ANDROID_LOG_DEBUG, LOG_TAG,
             "Starting custom PDF compression: " ++ inputPath ++ " -> " ++ outputPath)] ++
            (if removeMetadata then
              [(LogPriority.ANDROID_LOG_DEBUG, LOG_TAG, "Removed metadata and unused resources")]
            else []) ++
            [(LogPriority.ANDROID_LOG_ERROR, LOG_TAG, "Error compressing PDF: " ++ e)],
        calls :=
          [.QPDF_ctor, .processFile inputPath none] ++
            (if removeMetadata then [.removeKey "/Info" none] else []) ++
            [.QPDFWriter_ctor (if removeMetadata then pdf.removeTrailerKey "/Info" else pdf)
              outputPath (some e), .QPDF_dtor],
        ret := false } := by
  cases removeMetadata <;> cases linearize <;> apply Outcome.ext_fields <;>
    simp_all [Java_com_yourpackage_QPdfHelper_compressPdfCustom,
      compressPdfCustom_try, hload, hremove, hopen]

theorem compressPdfCustom_write_raises (tk : Toolkit) (env : JNIEnv) (fs : FileSystem)
    (inputPath outputPath : String) (removeMetadata linearize : jboolean)
    (compressionLevel : jint)
    (pdf : QPDF)
    (e : String)
    (fs1 fs2 : FileSystem)
    (hload : tk.processFile fs inputPath = .ok pdf)
    (hremove : removeMetadata = true → tk.removeKeyFault pdf "/Info" = none)
    (hopen : tk.openOutput fs
      (if removeMetadata then pdf.removeTrailerKey "/Info" else pdf) outputPath = (none, fs1))
    (hwrite : tk.write fs1
      { pdf := (if removeMetadata then pdf.removeTrailerKey "/Info" else pdf), filename :=
          outputPath,
        config :=
          { streamDataMode := some qpdf_s_compress, compressStreams := some true,
            recompressFlate := some true, decodeLevel := some qpdf_dl_all,
            objectStreamMode := some qpdf_o_generate,
            linearization := (if linearize then some true else none),
            preserveUnreferencedObjects := some false,
            minimumPDFVersion := some "1.5" } } = (some e, fs2)) :
    Java_com_yourpackage_QPdfHelper_compressPdfCustom tk env fs inputPath outputPath
      removeMetadata linearize compressionLevel =
      { env :=
          { classes := env.classes,
            pending :=
              if "java/lang/Exception" ∈ env.classes then some ("java/lang/Exception", e)
              else env.pending,
            acquired := outputPath :: inputPath :: env.acquired,
            released := env.released },
        fs := fs2,
        log :=
          [(LogPriority.ANDROID_LOG_DEBUG, LOG_TAG,
             "Starting custom PDF compression: " ++ inputPath ++ " -> " ++ outputPath)] ++
            (if removeMetadata then
              [(LogPriority.ANDROID_LOG_DEBUG, LOG_TAG, "Removed metadata and unused resources")]
            else []) ++
            (if linearize then [(LogPriority.ANDROID_LOG_DEBUG, LOG_TAG, "Enabled linearization")]
            else []) ++
            [(LogPriority.ANDROID_LOG_ERROR, LOG_TAG, "Error compressing PDF: " ++ e)],
        calls :=
          [.QPDF_ctor, .processFile inputPath none] ++
            (if removeMetadata then [.removeKey "/Info" none] else []) ++
            [.QPDFWriter_ctor (if removeMetadata then pdf.removeTrailerKey "/Info" else pdf)
               outputPath none,
             .setStreamDataMode qpdf_s_compress, .setCompressStreams true, .setRecompressFlate true,
             .setDecodeLevel qpdf_dl_all, .setObjectStreamMode qpdf_o_generate,
             .setPreserveUnreferencedObjects false, .setMinimumPDFVersion "1.5"] ++
            (if linearize then [.setLinearization true] else []) ++
            [.write
               { pdf := (if removeMetadata then pdf.removeTrailerKey "/Info" else pdf), filename :=
                   outputPath,
                 config :=
                   { streamDataMode := some qpdf_s_compress, compressStreams := some true,
                     recompressFlate := some true, decodeLevel := some qpdf_dl_all,
                     objectStreamMode := some qpdf_o_generate,
                     linearization := (if linearize then some true else none),
                     preserveUnreferencedObjects := some false,
                     minimumPDFVersion := some "1.5" } } (some e),
             .QPDFWriter_dtor, .QPDF_dtor],
        ret := false } := by
  cases removeMetadata <;> cases linearize <;> apply Outcome.ext_fields <;>
    simp_all [Java_com_yourpackage_QPdfHelper_compressPdfCustom,
      compressPdfCustom_try, hload, hremove, hopen, hwrite]

theorem compressPdfCustom_succeeds (tk : Toolkit) (env : JNIEnv) (fs : FileSystem)
    (inputPath outputPath : String) (removeMetadata linearize : jboolean)
    (compressionLevel : jint)
    (pdf : QPDF)
    (fs1 fs2 : FileSystem)
    (hload : tk.processFile fs inputPath = .ok pdf)
    (hremove : removeMetadata = true → tk.removeKeyFault pdf "/Info" = none)
    (hopen : tk.openOutput fs
      (if removeMetadata then pdf.removeTrailerKey "/Info" else pdf) outputPath = (none, fs1))
    (hwrite : tk.write fs1
      { pdf := (if removeMetadata then pdf.removeTrailerKey "/Info" else pdf), filename :=
          outputPath,
        config :=
          { streamDataMode := some qpdf_s_compress, compressStreams := some true,
            recompressFlate := some true, decodeLevel := some qpdf_dl_all,
            objectStreamMode := some qpdf_o_generate,
            linearization := (if linearize then some true else none),
            preserveUnreferencedObjects := some false,
            minimumPDFVersion := some "1.5" } } = (none, fs2)) :
    Java_com_yourpackage_QPdfHelper_compressPdfCustom tk env fs inputPath outputPath
      removeMetadata linearize compressionLevel =
      { env :=
          { classes := env.classes,
            pending :=
              env.pending,
            acquired := outputPath :: inputPath :: env.acquired,
            released := outputPath :: inputPath :: env.released },
        fs := fs2,
        log :=
          [(LogPriority.ANDROID_LOG_DEBUG, LOG_TAG,
             "Starting custom PDF compression: " ++ inputPath ++ " -> " ++ outputPath)] ++
            (if removeMetadata then
              [(LogPriority.ANDROID_LOG_DEBUG, LOG_TAG, "Removed metadata and unused resources")]
            else []) ++
            (if linearize then [(LogPriority.ANDROID_LOG_DEBUG, LOG_TAG, "Enabled linearization")]
            else []) ++
            [(LogPriority.ANDROID_LOG_DEBUG, LOG_TAG,
               "Successfully compressed PDF with custom settings")],
        calls :=
          [.QPDF_ctor, .processFile inputPath none] ++
            (if removeMetadata then [.removeKey "/Info" none] else []) ++
            [.QPDFWriter_ctor (if removeMetadata then pdf.removeTrailerKey "/Info" else pdf)
               outputPath none,
             .setStreamDataMode qpdf_s_compress, .setCompressStreams true, .setRecompressFlate true,
             .setDecodeLevel qpdf_dl_all, .setObjectStreamMode qpdf_o_generate,
             .setPreserveUnreferencedObjects false, .setMinimumPDFVersion "1.5"] ++
            (if linearize then [.setLinearization true] else []) ++
            [.write
               { pdf := (if removeMetadata then pdf.removeTrailerKey "/Info" else pdf), filename :=
                   outputPath,
                 config :=
                   { streamDataMode := some qpdf_s_compress, compressStreams := some true,
                     recompressFlate := some true, decodeLevel := some qpdf_dl_all,
                     objectStreamMode := some qpdf_o_generate,
                     linearization := (if linearize then some true else none),
                     preserveUnreferencedObjects := some false,
                     minimumPDFVersion := some "1.5" } } none,
             .QPDFWriter_dtor, .QPDF_dtor],
        ret := true } := by
  cases removeMetadata <;> cases linearize <;> apply Outcome.ext_fields <;>
    simp_all [Java_com_yourpackage_QPdfHelper_compressPdfCustom,
      compressPdfCustom_try, hload, hremove, hopen, hwrite]

/-- Every way the toolkit can answer the calls of an entry point that strips
the metadata when `strip` holds and writes with linearization setting `lin`:
loading raises; or removal raises; or the writer constructor raises; or
`write()` raises; or nothing does. -/
theorem toolkit_cases (tk : Toolkit) (fs : FileSystem) (inputPath outputPath : String)
    (strip : Bool) (lin : Option Bool) :
    (∃ e, tk.processFile fs inputPath = .error e) ∨
    (∃ pdf e, tk.processFile fs inputPath = .ok pdf ∧ strip = true ∧
      tk.removeKeyFault pdf "/Info" = some e) ∨
    (∃ pdf, tk.processFile fs inputPath = .ok pdf ∧
      (strip = true → tk.removeKeyFault pdf "/Info" = none) ∧
      ((∃ e fs1, tk.openOutput fs (if strip then pdf.removeTrailerKey "/Info" else pdf)
          outputPath = (some e, fs1)) ∨
       (∃ fs1, tk.openOutput fs (if strip then pdf.removeTrailerKey "/Info" else pdf)
          outputPath = (none, fs1) ∧
        ((∃ e fs2, tk.write fs1
            { pdf := (if strip then pdf.removeTrailerKey "/Info" else pdf),
              filename := outputPath,
              config :=
                { streamDataMode := some qpdf_s_compress, compressStreams := some true,
                  recompressFlate := some true, decodeLevel := some qpdf_dl_all,
                  objectStreamMode := some qpdf_o_generate, linearization := lin,
                  preserveUnreferencedObjects := some false,
                  minimumPDFVersion := some "1.5" } } = (some e, fs2)) ∨
         (∃ fs2, tk.write fs1
            { pdf := (if strip then pdf.removeTrailerKey "/Info" else pdf),
              filename := outputPath,
              config :=
                { streamDataMode := some qpdf_s_compress, compressStreams := some true,
                  recompressFlate := some true, decodeLevel := some qpdf_dl_all,
                  objectStreamMode := some qpdf_o_generate, linearization := lin,
                  preserveUnreferencedObjects := some false,
                  minimumPDFVersion := some "1.5" } } = (none, fs2)))))) := by
  rcases h1 : tk.processFile fs inputPath with e | pdf
  · exact Or.inl ⟨e, rfl⟩
  · right
    by_cases hs : strip = true ∧ ∃ e, tk.removeKeyFault pdf "/Info" = some e
    · obtain ⟨hs, e, he⟩ := hs
      exact Or.inl ⟨pdf, e, rfl, hs, he⟩
    · right
      refine ⟨pdf, rfl, ?_, ?_⟩
      · intro hst
        rcases h2 : tk.removeKeyFault pdf "/Info" with _ | e
        · rfl
        · exact absurd ⟨hst, e, h2⟩ hs
      · rcases h3 : tk.openOutput fs (if strip then pdf.removeTrailerKey "/Info" else pdf)
            outputPath with ⟨_ | e, fs1⟩
        · right
          refine ⟨fs1, rfl, ?_⟩
          rcases h4 : tk.write fs1
              { pdf := (if strip then pdf.removeTrailerKey "/Info" else pdf),
                filename := outputPath,
                config :=
                  { streamDataMode := some qpdf_s_compress, compressStreams := some true,
                    recompressFlate := some true, decodeLevel := some qpdf_dl_all,
                    objectStreamMode := some qpdf_o_generate, linearization := lin,
                    preserveUnreferencedObjects := some false,
                    minimumPDFVersion := some "1.5" } } with ⟨_ | e, fs2⟩
          · exact Or.inr ⟨fs2, rfl⟩
          · exact Or.inl ⟨e, fs2, rfl⟩
        · exact Or.inl ⟨e, fs1, rfl⟩

/-! ## Standard compression -/

/-- C1: when loading, writer creation and writing raise no exception,
`compressPdf` returns true; the document is loaded from `inputPath`, is handed
unmodified to a writer that targets `outputPath`, and `write()` is invoked once,
on a writer with stream data mode compress, compress-streams and
recompress-flate on, decode level all, object stream mode generate,
linearization on, preserve-unreferenced-objects off and minimum version "1.5". -/
theorem compressPdf_writes_with_maximum_settings (tk : Toolkit) (env : JNIEnv)
    (fs : FileSystem) (inputPath outputPath : String) (pdf : QPDF) (fs1 fs2 : FileSystem)
    (hload : tk.processFile fs inputPath = .ok pdf)
    (hopen : tk.openOutput fs pdf outputPath = (none, fs1))
    (hwrite : tk.write fs1
      { pdf := pdf, filename := outputPath,
        config :=
          { streamDataMode := some qpdf_s_compress, compressStreams := some true,
            recompressFlate := some true, decodeLevel := some qpdf_dl_all,
            objectStreamMode := some qpdf_o_generate, linearization := some true,
            preserveUnreferencedObjects := some false,
            minimumPDFVersion := some "1.5" } } = (none, fs2)) :
    (Java_com_yourpackage_QPdfHelper_compressPdf tk env fs inputPath outputPath).ret = true ∧
    (Java_com_yourpackage_QPdfHelper_compressPdf tk env fs inputPath outputPath).calls =
      [.QPDF_ctor, .processFile inputPath none, .QPDFWriter_ctor pdf outputPath none,
       .setStreamDataMode qpdf_s_compress, .setCompressStreams true, .setRecompressFlate true,
       .setDecodeLevel qpdf_dl_all, .setObjectStreamMode qpdf_o_generate,
       .setLinearization true, .setPreserveUnreferencedObjects false,
       .setMinimumPDFVersion "1.5",
       .write
         { pdf := pdf, filename := outputPath,
           config :=
             { streamDataMode := some qpdf_s_compress, compressStreams := some true,
               recompressFlate := some true, decodeLevel := some qpdf_dl_all,
               objectStreamMode := some qpdf_o_generate, linearization := some true,
               preserveUnreferencedObjects := some false,
               minimumPDFVersion := some "1.5" } } none,
       .QPDFWriter_dtor, .QPDF_dtor] ∧
    written (Java_com_yourpackage_QPdfHelper_compressPdf tk env fs inputPath outputPath).calls =
      [{ pdf := pdf, filename := outputPath,
         config :=
           { streamDataMode := some qpdf_s_compress, compressStreams := some true,
             recompressFlate := some true, decodeLevel := some qpdf_dl_all,
             objectStreamMode := some qpdf_o_generate, linearization := some true,
             preserveUnreferencedObjects := some false,
             minimumPDFVersion := some "1.5" } }] ∧
    (Java_com_yourpackage_QPdfHelper_compressPdf tk env fs inputPath outputPath).fs = fs2 := by
  rw [compressPdf_succeeds tk env fs inputPath outputPath pdf fs1 fs2 hload hopen hwrite]
  exact ⟨rfl, rfl, rfl, rfl⟩

/-- C1, on the sample device: `in.pdf` is compressed into `out.pdf`. -/
theorem compressPdf_writes_with_maximum_settings_witness :
    (Java_com_yourpackage_QPdfHelper_compressPdf plainToolkit sampleHost sampleFiles
      "in.pdf" "out.pdf").ret = true ∧
    (Java_com_yourpackage_QPdfHelper_compressPdf plainToolkit sampleHost sampleFiles
      "in.pdf" "out.pdf").fs.read "out.pdf" = some "%PDF-1.5 compressed" :=
  have h := compressPdf_writes_with_maximum_settings plainToolkit sampleHost sampleFiles
    "in.pdf" "out.pdf" sampleDocument (("out.pdf", "") :: sampleFiles)
    (("out.pdf", "%PDF-1.5 compressed") :: ("out.pdf", "") :: sampleFiles) rfl rfl rfl
  ⟨h.1, by rw [h.2.2.2]; rfl⟩

/-! ## The unused parameters -/

/-- C9: `compressionLevel` has no effect: for any two values the whole outcome
of `compressPdfCustom` (return value, host state with the exception thrown,
file system, log, toolkit calls with the document and the writer in them) is
the same. -/
theorem compressPdfCustom_ignores_compressionLevel (tk : Toolkit) (env : JNIEnv)
    (fs : FileSystem) (inputPath outputPath : String) (removeMetadata linearize : jboolean)
    (c1 c2 : jint) :
    Java_com_yourpackage_QPdfHelper_compressPdfCustom tk env fs inputPath outputPath
      removeMetadata linearize c1 =
    Java_com_yourpackage_QPdfHelper_compressPdfCustom tk env fs inputPath outputPath
      removeMetadata linearize c2 := rfl

/-! ## Errors -/

/-- C2 (as amended): for each of the three entry points and every message `m`
raised by a toolkit call (load, metadata removal, writer creation or write), on
a host that resolves `java/lang/Exception` the exception left pending is a
`java/lang/Exception` whose message is exactly `m`, with nothing put in front
of it. -/
theorem host_exception_carries_underlying_message (tk : Toolkit) (env : JNIEnv)
    (fs : FileSystem) (inputPath outputPath : String) (imageQuality : jint)
    (removeMetadata linearize : jboolean) (compressionLevel : jint) (m : String)
    (hclass : "java/lang/Exception" ∈ env.classes) :
    (raised (Java_com_yourpackage_QPdfHelper_compressPdf tk env fs inputPath
        outputPath).calls = some m →
      (Java_com_yourpackage_QPdfHelper_compressPdf tk env fs inputPath
        outputPath).env.pending = some ("java/lang/Exception", m)) ∧
    (raised (Java_com_yourpackage_QPdfHelper_compressPdfAggressive tk env fs inputPath
        outputPath imageQuality).calls = some m →
      (Java_com_yourpackage_QPdfHelper_compressPdfAggressive tk env fs inputPath
        outputPath imageQuality).env.pending = some ("java/lang/Exception", m)) ∧
    (raised (Java_com_yourpackage_QPdfHelper_compressPdfCustom tk env fs inputPath
        outputPath removeMetadata linearize compressionLevel).calls = some m →
      (Java_com_yourpackage_QPdfHelper_compressPdfCustom tk env fs inputPath
        outputPath removeMetadata linearize compressionLevel).env.pending =
          some ("java/lang/Exception", m)) := by
  refine ⟨?_, ?_, ?_⟩
  · rcases toolkit_cases tk fs inputPath outputPath false (some true) with
      ⟨e, h1⟩ | ⟨pdf, e, h1, hs, -⟩ | ⟨pdf, h1, -, ⟨e, fs1, h2⟩ | ⟨fs1, h2, ⟨e, fs2, h3⟩ | ⟨fs2,
          h3⟩⟩⟩
    · rw [compressPdf_load_raises tk env fs inputPath outputPath e h1]
      simp [hclass]
    · cases hs
    · rw [compressPdf_open_raises tk env fs inputPath outputPath pdf e fs1 h1 h2]
      simp [hclass]
    · rw [compressPdf_write_raises tk env fs inputPath outputPath pdf e fs1 fs2 h1 h2 h3]
      simp [hclass]
    · rw [compressPdf_succeeds tk env fs inputPath outputPath pdf fs1 fs2 h1 h2 h3]
      simp
  · rcases toolkit_cases tk fs inputPath outputPath true (some true) with
      ⟨e, h1⟩ | ⟨pdf, e, h1, -, h0⟩ | ⟨pdf, h1, h0, ⟨e, fs1, h2⟩ | ⟨fs1, h2, ⟨e, fs2, h3⟩ | ⟨fs2,
          h3⟩⟩⟩
    · rw [compressPdfAggressive_load_raises tk env fs inputPath outputPath imageQuality e h1]
      simp [hclass]
    · rw [compressPdfAggressive_removal_raises tk env fs inputPath outputPath imageQuality
        pdf e h1 h0]
      simp [hclass]
    · rw [compressPdfAggressive_open_raises tk env fs inputPath outputPath imageQuality
        pdf e fs1 h1 (h0 rfl) h2]
      simp [hclass]
    · rw [compressPdfAggressive_write_raises tk env fs inputPath outputPath imageQuality
        pdf e fs1 fs2 h1 (h0 rfl) h2 h3]
      simp [hclass]
    · rw [compressPdfAggressive_succeeds tk env fs inputPath outputPath imageQuality
        pdf fs1 fs2 h1 (h0 rfl) h2 h3]
      simp
  · rcases toolkit_cases tk fs inputPath outputPath removeMetadata
        (if linearize then some true else none) with
      ⟨e, h1⟩ | ⟨pdf, e, h1, hs, h0⟩ | ⟨pdf, h1, h0, ⟨e, fs1, h2⟩ | ⟨fs1, h2, ⟨e, fs2, h3⟩ | ⟨fs2,
          h3⟩⟩⟩
    · rw [compressPdfCustom_load_raises tk env fs inputPath outputPath removeMetadata linearize
        compressionLevel e h1]
      simp [hclass]
    · rw [compressPdfCustom_removal_raises tk env fs inputPath outputPath removeMetadata
        linearize compressionLevel pdf e h1 hs h0]
      simp [hclass]
    · rw [compressPdfCustom_open_raises tk env fs inputPath outputPath removeMetadata linearize
        compressionLevel pdf e fs1 h1 h0 h2]
      cases removeMetadata <;> simp [hclass]
    · rw [compressPdfCustom_write_raises tk env fs inputPath outputPath removeMetadata linearize
        compressionLevel pdf e fs1 fs2 h1 h0 h2 h3]
      cases removeMetadata <;> cases linearize <;> simp [hclass]
    · rw [compressPdfCustom_succeeds tk env fs inputPath outputPath removeMetadata linearize
        compressionLevel pdf fs1 fs2 h1 h0 h2 h3]
      cases removeMetadata <;> cases linearize <;> simp

/-- C7 (as amended): for each of the three entry points, a call that fails
before a writer is created (at load or at metadata removal) leaves the file
system, and so the file at `outputPath`, exactly as it was.  Once the writer
constructor has been called the bridge does nothing to the output itself: if
the constructor is the last toolkit call to touch files, the file system is
as the constructor left it, and if `write()` was invoked it is as `write()`
left it, whether or not either raised. -/
theorem output_untouched_before_writer (tk : Toolkit) (env : JNIEnv) (fs : FileSystem)
    (inputPath outputPath : String) (imageQuality : jint)
    (removeMetadata linearize : jboolean) (compressionLevel : jint) :
    ((handedToWriter (Java_com_yourpackage_QPdfHelper_compressPdf tk env fs inputPath
        outputPath).calls = [] →
      (Java_com_yourpackage_QPdfHelper_compressPdf tk env fs inputPath outputPath).fs = fs) ∧
    (∀ d, handedToWriter (Java_com_yourpackage_QPdfHelper_compressPdf tk env fs inputPath
        outputPath).calls = [d] →
      written (Java_com_yourpackage_QPdfHelper_compressPdf tk env fs inputPath
          outputPath).calls = [] →
      (Java_com_yourpackage_QPdfHelper_compressPdf tk env fs inputPath outputPath).fs =
        (tk.openOutput fs d outputPath).2) ∧
    (∀ w, written (Java_com_yourpackage_QPdfHelper_compressPdf tk env fs inputPath outputPath).calls
        = [w] →
      (Java_com_yourpackage_QPdfHelper_compressPdf tk env fs inputPath outputPath).fs =
        (tk.write (tk.openOutput fs w.pdf outputPath).2 w).2) ∧
    (∀ e, tk.processFile fs inputPath = .error e →
      (Java_com_yourpackage_QPdfHelper_compressPdf tk env fs inputPath outputPath).ret = false ∧
      handedToWriter (Java_com_yourpackage_QPdfHelper_compressPdf tk env fs inputPath
          outputPath).calls = [])) ∧
    ((handedToWriter (Java_com_yourpackage_QPdfHelper_compressPdfAggressive tk env fs inputPath
        outputPath imageQuality).calls = [] →
      (Java_com_yourpackage_QPdfHelper_compressPdfAggressive tk env fs inputPath outputPath
        imageQuality).fs = fs) ∧
    (∀ d, handedToWriter (Java_com_yourpackage_QPdfHelper_compressPdfAggressive tk env fs inputPath
        outputPath imageQuality).calls = [d] →
      written (Java_com_yourpackage_QPdfHelper_compressPdfAggressive tk env fs inputPath outputPath
        imageQuality).calls = [] →
      (Java_com_yourpackage_QPdfHelper_compressPdfAggressive tk env fs inputPath outputPath
        imageQuality).fs =
        (tk.openOutput fs d outputPath).2) ∧
    (∀ w, written (Java_com_yourpackage_QPdfHelper_compressPdfAggressive tk env fs inputPath
        outputPath imageQuality).calls = [w] →
      (Java_com_yourpackage_QPdfHelper_compressPdfAggressive tk env fs inputPath outputPath
        imageQuality).fs =
        (tk.write (tk.openOutput fs w.pdf outputPath).2 w).2) ∧
    (∀ e, tk.processFile fs inputPath = .error e →
      (Java_com_yourpackage_QPdfHelper_compressPdfAggressive tk env fs inputPath outputPath
        imageQuality).ret = false ∧
      handedToWriter (Java_com_yourpackage_QPdfHelper_compressPdfAggressive tk env fs inputPath
          outputPath imageQuality).calls = []) ∧
    (∀ e pdf, tk.processFile fs inputPath = .ok pdf → tk.removeKeyFault pdf "/Info" = some e →
      (Java_com_yourpackage_QPdfHelper_compressPdfAggressive tk env fs inputPath outputPath
        imageQuality).ret = false ∧
      handedToWriter (Java_com_yourpackage_QPdfHelper_compressPdfAggressive tk env fs inputPath
          outputPath imageQuality).calls = [])) ∧
    ((handedToWriter (Java_com_yourpackage_QPdfHelper_compressPdfCustom tk env fs inputPath
        outputPath removeMetadata linearize compressionLevel).calls = [] →
      (Java_com_yourpackage_QPdfHelper_compressPdfCustom tk env fs inputPath outputPath
        removeMetadata linearize compressionLevel).fs = fs) ∧
    (∀ d, handedToWriter (Java_com_yourpackage_QPdfHelper_compressPdfCustom tk env fs inputPath
        outputPath removeMetadata linearize compressionLevel).calls = [d] →
      written (Java_com_yourpackage_QPdfHelper_compressPdfCustom tk env fs inputPath outputPath
        removeMetadata linearize compressionLevel).calls = [] →
      (Java_com_yourpackage_QPdfHelper_compressPdfCustom tk env fs inputPath outputPath
        removeMetadata linearize compressionLevel).fs =
        (tk.openOutput fs d outputPath).2) ∧
    (∀ w, written (Java_com_yourpackage_QPdfHelper_compressPdfCustom tk env fs inputPath outputPath
        removeMetadata linearize compressionLevel).calls = [w] →
      (Java_com_yourpackage_QPdfHelper_compressPdfCustom tk env fs inputPath outputPath
        removeMetadata linearize compressionLevel).fs =
        (tk.write (tk.openOutput fs w.pdf outputPath).2 w).2) ∧
    (∀ e, tk.processFile fs inputPath = .error e →
      (Java_com_yourpackage_QPdfHelper_compressPdfCustom tk env fs inputPath outputPath
        removeMetadata linearize compressionLevel).ret = false ∧
      handedToWriter (Java_com_yourpackage_QPdfHelper_compressPdfCustom tk env fs inputPath
          outputPath removeMetadata linearize compressionLevel).calls = []) ∧
    (∀ e pdf, tk.processFile fs inputPath = .ok pdf → removeMetadata = true →
      tk.removeKeyFault pdf "/Info" = some e →
      (Java_com_yourpackage_QPdfHelper_compressPdfCustom tk env fs inputPath outputPath
        removeMetadata linearize compressionLevel).ret = false ∧
      handedToWriter (Java_com_yourpackage_QPdfHelper_compressPdfCustom tk env fs inputPath
          outputPath removeMetadata linearize compressionLevel).calls = [])) := by
  refine ⟨?_, ?_, ?_⟩
  · rcases toolkit_cases tk fs inputPath outputPath false (some true) with
      ⟨e, h1⟩ | ⟨pdf, e, h1, hs, -⟩ |
      ⟨pdf, h1, -, ⟨e, fs1, h2⟩ | ⟨fs1, h2, ⟨e, fs2, h3⟩ | ⟨fs2, h3⟩⟩⟩
    · rw [compressPdf_load_raises tk env fs inputPath outputPath e h1]
      simp_all
    · cases hs
    · rw [compressPdf_open_raises tk env fs inputPath outputPath pdf e fs1 h1 h2]
      simp_all
    · rw [compressPdf_write_raises tk env fs inputPath outputPath pdf e fs1 fs2 h1 h2 h3]
      simp_all
    · rw [compressPdf_succeeds tk env fs inputPath outputPath pdf fs1 fs2 h1 h2 h3]
      simp_all
  · rcases toolkit_cases tk fs inputPath outputPath true (some true) with
      ⟨e, h1⟩ | ⟨pdf, e, h1, -, h0⟩ |
      ⟨pdf, h1, h0, ⟨e, fs1, h2⟩ | ⟨fs1, h2, ⟨e, fs2, h3⟩ | ⟨fs2, h3⟩⟩⟩
    · rw [compressPdfAggressive_load_raises tk env fs inputPath outputPath imageQuality e h1]
      simp_all
    · rw [compressPdfAggressive_removal_raises tk env fs inputPath outputPath imageQuality
        pdf e h1 h0]
      simp_all
    · rw [compressPdfAggressive_open_raises tk env fs inputPath outputPath imageQuality
        pdf e fs1 h1 (h0 rfl) h2]
      simp_all
    · rw [compressPdfAggressive_write_raises tk env fs inputPath outputPath imageQuality
        pdf e fs1 fs2 h1 (h0 rfl) h2 h3]
      simp_all
    · rw [compressPdfAggressive_succeeds tk env fs inputPath outputPath imageQuality
        pdf fs1 fs2 h1 (h0 rfl) h2 h3]
      simp_all
  · rcases toolkit_cases tk fs inputPath outputPath removeMetadata
        (if linearize then some true else none) with
      ⟨e, h1⟩ | ⟨pdf, e, h1, hs, h0⟩ |
      ⟨pdf, h1, h0, ⟨e, fs1, h2⟩ | ⟨fs1, h2, ⟨e, fs2, h3⟩ | ⟨fs2, h3⟩⟩⟩
    · rw [compressPdfCustom_load_raises tk env fs inputPath outputPath removeMetadata linearize
        compressionLevel e h1]
      simp_all
    · rw [compressPdfCustom_removal_raises tk env fs inputPath outputPath removeMetadata linearize
        compressionLevel pdf e h1 hs h0]
      simp_all
    · rw [compressPdfCustom_open_raises tk env fs inputPath outputPath removeMetadata linearize
        compressionLevel pdf e fs1 h1 h0 h2]
      cases removeMetadata <;> simp_all
    · rw [compressPdfCustom_write_raises tk env fs inputPath outputPath removeMetadata linearize
        compressionLevel pdf e fs1 fs2 h1 h0 h2 h3]
      cases removeMetadata <;> cases linearize <;> simp_all
    · rw [compressPdfCustom_succeeds tk env fs inputPath outputPath removeMetadata linearize
        compressionLevel pdf fs1 fs2 h1 h0 h2 h3]
      cases removeMetadata <;> cases linearize <;> simp_all

/-! ## The writer -/

/-- Every writer on which `compressPdf` invokes `write()` targets `outputPath`
and carries the maximum-compression configuration. -/
theorem compressPdf_written_config (tk : Toolkit) (env : JNIEnv) (fs : FileSystem)
    (inputPath outputPath : String) (w : QPDFWriter)
    (hw : w ∈ written (Java_com_yourpackage_QPdfHelper_compressPdf tk env fs inputPath
      outputPath).calls) :
    w.filename = outputPath ∧
    w.config =
      { streamDataMode := some qpdf_s_compress, compressStreams := some true,
        recompressFlate := some true, decodeLevel := some qpdf_dl_all,
        objectStreamMode := some qpdf_o_generate, linearization := some true,
        preserveUnreferencedObjects := some false, minimumPDFVersion := some "1.5" } := by
  revert hw
  rcases toolkit_cases tk fs inputPath outputPath false (some true) with
    ⟨e, h1⟩ | ⟨pdf, e, h1, hs, -⟩ |
    ⟨pdf, h1, -, ⟨e, fs1, h2⟩ | ⟨fs1, h2, ⟨e, fs2, h3⟩ | ⟨fs2, h3⟩⟩⟩
  · rw [compressPdf_load_raises tk env fs inputPath outputPath e h1]
    simp
  · cases hs
  · rw [compressPdf_open_raises tk env fs inputPath outputPath pdf e fs1 h1 h2]
    simp
  · rw [compressPdf_write_raises tk env fs inputPath outputPath pdf e fs1 fs2 h1 h2 h3]
    simp
    rintro rfl
    exact ⟨rfl, rfl⟩
  · rw [compressPdf_succeeds tk env fs inputPath outputPath pdf fs1 fs2 h1 h2 h3]
    simp
    rintro rfl
    exact ⟨rfl, rfl⟩

/-- Every writer on which `compressPdfAggressive` invokes `write()` targets
`outputPath` and carries the maximum-compression configuration. -/
theorem compressPdfAggressive_written_config (tk : Toolkit) (env : JNIEnv) (fs : FileSystem)
    (inputPath outputPath : String) (imageQuality : jint) (w : QPDFWriter)
    (hw : w ∈ written (Java_com_yourpackage_QPdfHelper_compressPdfAggressive tk env fs inputPath
      outputPath imageQuality).calls) :
    w.filename = outputPath ∧
    w.config =
      { streamDataMode := some qpdf_s_compress, compressStreams := some true,
        recompressFlate := some true, decodeLevel := some qpdf_dl_all,
        objectStreamMode := some qpdf_o_generate, linearization := some true,
        preserveUnreferencedObjects := some false, minimumPDFVersion := some "1.5" } := by
  revert hw
  rcases toolkit_cases tk fs inputPath outputPath true (some true) with
    ⟨e, h1⟩ | ⟨pdf, e, h1, -, h0⟩ |
    ⟨pdf, h1, h0, ⟨e, fs1, h2⟩ | ⟨fs1, h2, ⟨e, fs2, h3⟩ | ⟨fs2, h3⟩⟩⟩
  · rw [compressPdfAggressive_load_raises tk env fs inputPath outputPath imageQuality e h1]
    simp
  · rw [compressPdfAggressive_removal_raises tk env fs inputPath outputPath imageQuality
      pdf e h1 h0]
    simp
  · rw [compressPdfAggressive_open_raises tk env fs inputPath outputPath imageQuality
      pdf e fs1 h1 (h0 rfl) h2]
    simp
  · rw [compressPdfAggressive_write_raises tk env fs inputPath outputPath imageQuality
      pdf e fs1 fs2 h1 (h0 rfl) h2 h3]
    simp
    rintro rfl
    exact ⟨rfl, rfl⟩
  · rw [compressPdfAggressive_succeeds tk env fs inputPath outputPath imageQuality
      pdf fs1 fs2 h1 (h0 rfl) h2 h3]
    simp
    rintro rfl
    exact ⟨rfl, rfl⟩

/-- The document `compressPdfCustom` hands to the writer constructor once the
document is loaded and the removal, if asked for, did not raise: the loaded
document, without "/Info" in its trailer when `removeMetadata` holds.  It is
also the document of every writer on which `write()` is invoked. -/
theorem compressPdfCustom_handedToWriter (tk : Toolkit) (env : JNIEnv) (fs : FileSystem)
    (inputPath outputPath : String) (removeMetadata linearize : jboolean)
    (compressionLevel : jint) (pdf : QPDF)
    (hload : tk.processFile fs inputPath = .ok pdf)
    (hremove : removeMetadata = true → tk.removeKeyFault pdf "/Info" = none) :
    handedToWriter (Java_com_yourpackage_QPdfHelper_compressPdfCustom tk env fs inputPath
      outputPath removeMetadata linearize compressionLevel).calls =
      [if removeMetadata then pdf.removeTrailerKey "/Info" else pdf] ∧
    ∀ w ∈ written (Java_com_yourpackage_QPdfHelper_compressPdfCustom tk env fs inputPath
      outputPath removeMetadata linearize compressionLevel).calls,
      w.pdf = (if removeMetadata then pdf.removeTrailerKey "/Info" else pdf) := by
  rcases toolkit_cases tk fs inputPath outputPath removeMetadata
      (if linearize then some true else none) with
    ⟨e, h1⟩ | ⟨pdf, e, h1, hs, h0⟩ |
    ⟨pdf, h1, h0, ⟨e, fs1, h2⟩ | ⟨fs1, h2, ⟨e, fs2, h3⟩ | ⟨fs2, h3⟩⟩⟩
  · rw [compressPdfCustom_load_raises tk env fs inputPath outputPath removeMetadata linearize
      compressionLevel e h1]
    simp_all
  · rw [compressPdfCustom_removal_raises tk env fs inputPath outputPath removeMetadata linearize
      compressionLevel pdf e h1 hs h0]
    simp_all
  · rw [compressPdfCustom_open_raises tk env fs inputPath outputPath removeMetadata linearize
      compressionLevel pdf e fs1 h1 h0 h2]
    cases removeMetadata <;> simp_all
  · rw [compressPdfCustom_write_raises tk env fs inputPath outputPath removeMetadata linearize
      compressionLevel pdf e fs1 fs2 h1 h0 h2 h3]
    cases removeMetadata <;> cases linearize <;> simp_all
  · rw [compressPdfCustom_succeeds tk env fs inputPath outputPath removeMetadata linearize
      compressionLevel pdf fs1 fs2 h1 h0 h2 h3]
    cases removeMetadata <;> cases linearize <;> simp_all

/-! ## Aggressive compression -/

/-- C4: for any two `imageQuality` values `compressPdfAggressive` gives the
same return value, the same toolkit calls (so the same document handed to the
writer and the same writer configuration), the same host state and the same
file system.  When it returns true, "/Info" was removed from the loaded
trailer (every other key and the objects kept) before the writer was created
and written, and every writer it writes has the configuration of every writer
`compressPdf` writes. -/
theorem compressPdfAggressive_ignores_imageQuality (tk : Toolkit) (env : JNIEnv)
    (fs : FileSystem) (inputPath outputPath : String) (q1 q2 : jint) :
    (Java_com_yourpackage_QPdfHelper_compressPdfAggressive tk env fs inputPath outputPath q1).ret =
      (Java_com_yourpackage_QPdfHelper_compressPdfAggressive tk env fs inputPath outputPath
          q2).ret ∧
    (Java_com_yourpackage_QPdfHelper_compressPdfAggressive tk env fs inputPath outputPath
        q1).calls =
      (Java_com_yourpackage_QPdfHelper_compressPdfAggressive tk env fs inputPath outputPath
          q2).calls ∧
    (Java_com_yourpackage_QPdfHelper_compressPdfAggressive tk env fs inputPath outputPath q1).env =
      (Java_com_yourpackage_QPdfHelper_compressPdfAggressive tk env fs inputPath outputPath
          q2).env ∧
    (Java_com_yourpackage_QPdfHelper_compressPdfAggressive tk env fs inputPath outputPath q1).fs =
      (Java_com_yourpackage_QPdfHelper_compressPdfAggressive tk env fs inputPath outputPath q2).fs ∧
    ((Java_com_yourpackage_QPdfHelper_compressPdfAggressive tk env fs inputPath outputPath q1).ret =
        true →
      ∃ pdf stripped : QPDF, tk.processFile fs inputPath = .ok pdf ∧
        stripped.trailer.getKey "/Info" = none ∧
        (∀ k, k ≠ "/Info" → stripped.trailer.getKey k = pdf.trailer.getKey k) ∧
        (∀ kv, kv ∈ stripped.trailer ↔ kv ∈ pdf.trailer ∧ kv.1 ≠ "/Info") ∧
        stripped.objects = pdf.objects ∧
        (Java_com_yourpackage_QPdfHelper_compressPdfAggressive tk env fs inputPath outputPath
            q1).calls =
          [.QPDF_ctor, .processFile inputPath none, .removeKey "/Info" none,
           .QPDFWriter_ctor stripped outputPath none,
           .setStreamDataMode qpdf_s_compress, .setCompressStreams true,
           .setRecompressFlate true, .setDecodeLevel qpdf_dl_all,
           .setObjectStreamMode qpdf_o_generate, .setLinearization true,
           .setPreserveUnreferencedObjects false, .setMinimumPDFVersion "1.5",
           .write
             { pdf := stripped, filename := outputPath,
               config :=
                 { streamDataMode := some qpdf_s_compress, compressStreams := some true,
                   recompressFlate := some true, decodeLevel := some qpdf_dl_all,
                   objectStreamMode := some qpdf_o_generate, linearization := some true,
                   preserveUnreferencedObjects := some false,
                   minimumPDFVersion := some "1.5" } } none,
           .QPDFWriter_dtor, .QPDF_dtor]) ∧
    (∀ (tk' : Toolkit) (env' : JNIEnv) (fs' : FileSystem) (inputPath' outputPath' : String)
        (w w' : QPDFWriter),
      w ∈ written (Java_com_yourpackage_QPdfHelper_compressPdfAggressive tk env fs inputPath
          outputPath q1).calls →
      w' ∈ written (Java_com_yourpackage_QPdfHelper_compressPdf tk' env' fs' inputPath'
        outputPath').calls →
      w.config = w'.config) := by
  rcases toolkit_cases tk fs inputPath outputPath true (some true) with
    ⟨e, h1⟩ | ⟨pdf, e, h1, -, h0⟩ |
    ⟨pdf, h1, h0, ⟨e, fs1, h2⟩ | ⟨fs1, h2, ⟨e, fs2, h3⟩ | ⟨fs2, h3⟩⟩⟩
  · rw [compressPdfAggressive_load_raises tk env fs inputPath outputPath q1 e h1]
    rw [compressPdfAggressive_load_raises tk env fs inputPath outputPath q2 e h1]
    simp
  · rw [compressPdfAggressive_removal_raises tk env fs inputPath outputPath q1
      pdf e h1 h0]
    rw [compressPdfAggressive_removal_raises tk env fs inputPath outputPath q2 pdf e h1 h0]
    simp
  · rw [compressPdfAggressive_open_raises tk env fs inputPath outputPath q1
      pdf e fs1 h1 (h0 rfl) h2]
    rw [compressPdfAggressive_open_raises tk env fs inputPath outputPath q2 pdf e fs1 h1 (h0 rfl)
        h2]
    simp
  · rw [compressPdfAggressive_write_raises tk env fs inputPath outputPath q1
      pdf e fs1 fs2 h1 (h0 rfl) h2 h3]
    rw [compressPdfAggressive_write_raises tk env fs inputPath outputPath q2 pdf e fs1 fs2 h1 (h0
        rfl) h2 h3]
    refine ⟨rfl, rfl, rfl, rfl, by simp, ?_⟩
    · intro tk' env' fs' i' o' w w' hw hw'
      simp only [written, List.mem_singleton] at hw
      rw [hw, (compressPdf_written_config tk' env' fs' i' o' w' hw').2]
  · rw [compressPdfAggressive_succeeds tk env fs inputPath outputPath q1
      pdf fs1 fs2 h1 (h0 rfl) h2 h3]
    rw [compressPdfAggressive_succeeds tk env fs inputPath outputPath q2 pdf fs1 fs2 h1 (h0 rfl) h2
        h3]
    refine ⟨rfl, rfl, rfl, rfl, fun _ => ?_, ?_⟩
    · exact ⟨pdf, pdf.removeTrailerKey "/Info", h1, Dictionary.getKey_removeKey_self _ _,
        fun k hk => Dictionary.getKey_removeKey_of_ne _ _ _ hk,
        fun kv => Dictionary.mem_removeKey _ _ _, rfl, rfl⟩
    · intro tk' env' fs' i' o' w w' hw hw'
      simp only [written, List.mem_singleton] at hw
      rw [hw, (compressPdf_written_config tk' env' fs' i' o' w' hw').2]

/-- C10: `compressPdfAggressive` is `compressPdfCustom` with
`removeMetadata = true` and `linearize = true`: for every `imageQuality` and
`compressionLevel` the two give the same return value, the same host state
(so the same exception, if any), the same file system, the same document
handed to the writer, with no "/Info" in its trailer, and the same writers
written, configuration included; yet when `write()` is reached their setter
calls differ in order: `setLinearization(true)` comes sixth in the one and last
in the other. -/
theorem compressPdfAggressive_eq_custom_with_both_flags (tk : Toolkit) (env : JNIEnv)
    (fs : FileSystem) (inputPath outputPath : String) (imageQuality compressionLevel : jint) :
    (Java_com_yourpackage_QPdfHelper_compressPdfAggressive tk env fs inputPath outputPath
      imageQuality).ret =
      (Java_com_yourpackage_QPdfHelper_compressPdfCustom tk env fs inputPath outputPath
      true true compressionLevel).ret ∧
    (Java_com_yourpackage_QPdfHelper_compressPdfAggressive tk env fs inputPath outputPath
      imageQuality).env =
      (Java_com_yourpackage_QPdfHelper_compressPdfCustom tk env fs inputPath outputPath
      true true compressionLevel).env ∧
    (Java_com_yourpackage_QPdfHelper_compressPdfAggressive tk env fs inputPath outputPath
      imageQuality).fs =
      (Java_com_yourpackage_QPdfHelper_compressPdfCustom tk env fs inputPath outputPath
      true true compressionLevel).fs ∧
    raised (Java_com_yourpackage_QPdfHelper_compressPdfAggressive tk env fs inputPath outputPath
      imageQuality).calls =
      raised (Java_com_yourpackage_QPdfHelper_compressPdfCustom tk env fs inputPath outputPath
      true true compressionLevel).calls ∧
    handedToWriter (Java_com_yourpackage_QPdfHelper_compressPdfAggressive tk env fs inputPath
        outputPath imageQuality).calls =
      handedToWriter (Java_com_yourpackage_QPdfHelper_compressPdfCustom tk env fs inputPath
          outputPath true true compressionLevel).calls ∧
    written (Java_com_yourpackage_QPdfHelper_compressPdfAggressive tk env fs inputPath outputPath
      imageQuality).calls =
      written (Java_com_yourpackage_QPdfHelper_compressPdfCustom tk env fs inputPath outputPath
      true true compressionLevel).calls ∧
    (∀ d ∈ handedToWriter (Java_com_yourpackage_QPdfHelper_compressPdfAggressive tk env fs inputPath
        outputPath imageQuality).calls, d.trailer.getKey "/Info" = none) ∧
    (written (Java_com_yourpackage_QPdfHelper_compressPdfAggressive tk env fs inputPath outputPath
      imageQuality).calls ≠ [] →
      setterCalls (Java_com_yourpackage_QPdfHelper_compressPdfAggressive tk env fs inputPath
          outputPath imageQuality).calls =
        [.setStreamDataMode qpdf_s_compress, .setCompressStreams true, .setRecompressFlate true,
         .setDecodeLevel qpdf_dl_all, .setObjectStreamMode qpdf_o_generate,
         .setLinearization true, .setPreserveUnreferencedObjects false,
         .setMinimumPDFVersion "1.5"] ∧
      setterCalls (Java_com_yourpackage_QPdfHelper_compressPdfCustom tk env fs inputPath outputPath
      true true compressionLevel).calls =
        [.setStreamDataMode qpdf_s_compress, .setCompressStreams true, .setRecompressFlate true,
         .setDecodeLevel qpdf_dl_all, .setObjectStreamMode qpdf_o_generate,
         .setPreserveUnreferencedObjects false, .setMinimumPDFVersion "1.5",
         .setLinearization true]) := by
  rcases toolkit_cases tk fs inputPath outputPath true (some true) with
    ⟨e, h1⟩ | ⟨pdf, e, h1, -, h0⟩ |
    ⟨pdf, h1, h0, ⟨e, fs1, h2⟩ | ⟨fs1, h2, ⟨e, fs2, h3⟩ | ⟨fs2, h3⟩⟩⟩
  · rw [compressPdfAggressive_load_raises tk env fs inputPath outputPath imageQuality e h1]
    rw [compressPdfCustom_load_raises tk env fs inputPath outputPath true true
      compressionLevel e h1]
    simp [QPDF.removeTrailerKey, Dictionary.getKey_removeKey_self]
  · rw [compressPdfAggressive_removal_raises tk env fs inputPath outputPath imageQuality
      pdf e h1 h0]
    rw [compressPdfCustom_removal_raises tk env fs inputPath outputPath true true
      compressionLevel pdf e h1 rfl h0]
    simp [QPDF.removeTrailerKey, Dictionary.getKey_removeKey_self]
  · rw [compressPdfAggressive_open_raises tk env fs inputPath outputPath imageQuality
      pdf e fs1 h1 (h0 rfl) h2]
    rw [compressPdfCustom_open_raises tk env fs inputPath outputPath true true
      compressionLevel pdf e fs1 h1 h0 h2]
    simp [QPDF.removeTrailerKey, Dictionary.getKey_removeKey_self]
  · rw [compressPdfAggressive_write_raises tk env fs inputPath outputPath imageQuality
      pdf e fs1 fs2 h1 (h0 rfl) h2 h3]
    rw [compressPdfCustom_write_raises tk env fs inputPath outputPath true true
      compressionLevel pdf e fs1 fs2 h1 h0 h2 h3]
    simp [QPDF.removeTrailerKey, Dictionary.getKey_removeKey_self]
  · rw [compressPdfAggressive_succeeds tk env fs inputPath outputPath imageQuality
      pdf fs1 fs2 h1 (h0 rfl) h2 h3]
    rw [compressPdfCustom_succeeds tk env fs inputPath outputPath true true
      compressionLevel pdf fs1 fs2 h1 h0 h2 h3]
    simp [QPDF.removeTrailerKey, Dictionary.getKey_removeKey_self]

/-! ## Custom compression -/

/-- C6: once the document is loaded, `compressPdfCustom` with
`removeMetadata = true` (and a removal that does not raise) hands the writer a
document whose trailer has no "/Info" key, binds every other key as the loaded
trailer does, has the loaded trailer's other entries and the loaded objects;
with `removeMetadata = false` it hands the writer the loaded document itself,
trailer unchanged.  This holds for every `linearize` and `compressionLevel`,
and the document is also the one of the writer on which `write()` is invoked. -/
theorem compressPdfCustom_metadata_flag (tk : Toolkit) (env : JNIEnv) (fs : FileSystem)
    (inputPath outputPath : String) (linearize : jboolean) (compressionLevel : jint)
    (pdf : QPDF) (hload : tk.processFile fs inputPath = .ok pdf) :
    (tk.removeKeyFault pdf "/Info" = none →
      ∃ stripped : QPDF,
        handedToWriter (Java_com_yourpackage_QPdfHelper_compressPdfCustom tk env fs inputPath
            outputPath true linearize compressionLevel).calls = [stripped] ∧
        (∀ w ∈ written (Java_com_yourpackage_QPdfHelper_compressPdfCustom tk env fs inputPath
            outputPath true linearize compressionLevel).calls, w.pdf = stripped) ∧
        stripped.trailer.getKey "/Info" = none ∧
        (∀ k, k ≠ "/Info" → stripped.trailer.getKey k = pdf.trailer.getKey k) ∧
        (∀ kv, kv ∈ stripped.trailer ↔ kv ∈ pdf.trailer ∧ kv.1 ≠ "/Info") ∧
        stripped.objects = pdf.objects) ∧
    handedToWriter (Java_com_yourpackage_QPdfHelper_compressPdfCustom tk env fs inputPath outputPath
      false linearize compressionLevel).calls = [pdf] ∧
    (∀ w ∈ written (Java_com_yourpackage_QPdfHelper_compressPdfCustom tk env fs inputPath outputPath
      false linearize compressionLevel).calls, w.pdf = pdf) := by
  refine ⟨fun hremove => ?_, ?_⟩
  · have h := compressPdfCustom_handedToWriter tk env fs inputPath outputPath true linearize
      compressionLevel pdf hload (fun _ => hremove)
    exact ⟨pdf.removeTrailerKey "/Info", h.1, h.2, Dictionary.getKey_removeKey_self _ _,
      fun k hk => Dictionary.getKey_removeKey_of_ne _ _ _ hk,
      fun kv => Dictionary.mem_removeKey _ _ _, rfl⟩
  · have h := compressPdfCustom_handedToWriter tk env fs inputPath outputPath false linearize
      compressionLevel pdf hload (by simp)
    exact ⟨h.1, h.2⟩

/-! ## Instances on the sample device -/

/-- C2, as stated, fails: loading a missing file raises "open missing.pdf: No
such file or directory", and each entry point leaves pending a
`java/lang/Exception` with exactly that message, not that message after
"PDF processing failed: ". -/
theorem error_message_is_not_prefixed :
    raised (Java_com_yourpackage_QPdfHelper_compressPdf plainToolkit sampleHost sampleFiles
      "missing.pdf" "out.pdf").calls = some "open missing.pdf: No such file or directory" ∧
    (Java_com_yourpackage_QPdfHelper_compressPdf plainToolkit sampleHost sampleFiles
      "missing.pdf" "out.pdf").env.pending =
        some ("java/lang/Exception", "open missing.pdf: No such file or directory") ∧
    (Java_com_yourpackage_QPdfHelper_compressPdf plainToolkit sampleHost sampleFiles
      "missing.pdf" "out.pdf").env.pending ≠
        some ("java/lang/Exception",
          "PDF processing failed: " ++ "open missing.pdf: No such file or directory") ∧
    (Java_com_yourpackage_QPdfHelper_compressPdfAggressive plainToolkit sampleHost sampleFiles
      "missing.pdf" "out.pdf" 80).env.pending ≠
        some ("java/lang/Exception",
          "PDF processing failed: " ++ "open missing.pdf: No such file or directory") ∧
    (Java_com_yourpackage_QPdfHelper_compressPdfCustom plainToolkit sampleHost sampleFiles
      "missing.pdf" "out.pdf" true true 6).env.pending ≠
        some ("java/lang/Exception",
          "PDF processing failed: " ++ "open missing.pdf: No such file or directory") := by
  decide

/-- C2 (as amended), on the sample device: the message of the pending
exception is the message of the failed load. -/
theorem host_exception_carries_underlying_message_witness :
    "java/lang/Exception" ∈ sampleHost.classes ∧
    (Java_com_yourpackage_QPdfHelper_compressPdfCustom plainToolkit sampleHost sampleFiles
      "missing.pdf" "out.pdf" true true 6).env.pending =
        some ("java/lang/Exception", "open missing.pdf: No such file or directory") :=
  ⟨by decide,
    (host_exception_carries_underlying_message plainToolkit sampleHost sampleFiles
      "missing.pdf" "out.pdf" 80 true true 6 "open missing.pdf: No such file or directory"
      (by decide)).2.2 (by decide)⟩

/-- C4, on the sample device: the aggressive compression of `in.pdf` returns
true whatever the quality, and hands the writer a document without "/Info". -/
theorem compressPdfAggressive_ignores_imageQuality_witness :
    (Java_com_yourpackage_QPdfHelper_compressPdfAggressive plainToolkit sampleHost sampleFiles
      "in.pdf" "out.pdf" 0).ret = true ∧
    (Java_com_yourpackage_QPdfHelper_compressPdfAggressive plainToolkit sampleHost sampleFiles
      "in.pdf" "out.pdf" 0).calls =
    (Java_com_yourpackage_QPdfHelper_compressPdfAggressive plainToolkit sampleHost sampleFiles
      "in.pdf" "out.pdf" (-2147483648)).calls ∧
    ∃ pdf stripped : QPDF, plainToolkit.processFile sampleFiles "in.pdf" = .ok pdf ∧
      stripped.trailer.getKey "/Info" = none ∧
      handedToWriter (Java_com_yourpackage_QPdfHelper_compressPdfAggressive plainToolkit
        sampleHost sampleFiles "in.pdf" "out.pdf" 0).calls = [stripped] :=
  have h := compressPdfAggressive_ignores_imageQuality plainToolkit sampleHost sampleFiles
    "in.pdf" "out.pdf" 0 (-2147483648)
  have hret : (Java_com_yourpackage_QPdfHelper_compressPdfAggressive plainToolkit sampleHost
      sampleFiles "in.pdf" "out.pdf" 0).ret = true := by decide
  ⟨hret, h.2.1,
    match h.2.2.2.2.1 hret with
    | ⟨pdf, stripped, h1, h2, _, _, _, h6⟩ => ⟨pdf, stripped, h1, h2, by rw [h6]; rfl⟩⟩

/-- C6, on the sample device: with the flag the writer gets the sample
document without its "/Info" entry, without the flag the sample document. -/
theorem compressPdfCustom_metadata_flag_witness :
    plainToolkit.processFile sampleFiles "in.pdf" = .ok sampleDocument ∧
    sampleDocument.trailer.getKey "/Info" = some 2 ∧
    handedToWriter (Java_com_yourpackage_QPdfHelper_compressPdfCustom plainToolkit sampleHost
      sampleFiles "in.pdf" "out.pdf" false true 6).calls = [sampleDocument] ∧
    ∃ stripped : QPDF,
      handedToWriter (Java_com_yourpackage_QPdfHelper_compressPdfCustom plainToolkit sampleHost
        sampleFiles "in.pdf" "out.pdf" true true 6).calls = [stripped] ∧
      stripped.trailer.getKey "/Info" = none :=
  have h := compressPdfCustom_metadata_flag plainToolkit sampleHost sampleFiles
    "in.pdf" "out.pdf" true 6 sampleDocument rfl
  ⟨rfl, by decide, h.2.1,
    match h.1 rfl with
    | ⟨stripped, h1, _, h3, _⟩ => ⟨stripped, h1, h3⟩⟩

/-- C7, as stated, fails: when `write()` raises after the writer has opened the
output, `compressPdf` returns false and the earlier contents of `out.pdf` are
gone: the file holds the part written before the exception. -/
theorem failed_write_leaves_truncated_output :
    (Java_com_yourpackage_QPdfHelper_compressPdf failingWriteToolkit sampleHost sampleFiles
      "in.pdf" "out.pdf").ret = false ∧
    sampleFiles.read "out.pdf" = some "%PDF-1.4 earlier output" ∧
    (Java_com_yourpackage_QPdfHelper_compressPdf failingWriteToolkit sampleHost sampleFiles
      "in.pdf" "out.pdf").fs.read "out.pdf" = some "%PDF-1.5 part" := by
  decide

/-- C7 (as amended), on the sample device: a call that fails at load leaves
`out.pdf` as it was. -/
theorem output_untouched_before_writer_witness :
    (Java_com_yourpackage_QPdfHelper_compressPdf plainToolkit sampleHost sampleFiles
      "missing.pdf" "out.pdf").ret = false ∧
    (Java_com_yourpackage_QPdfHelper_compressPdf plainToolkit sampleHost sampleFiles
      "missing.pdf" "out.pdf").fs.read "out.pdf" = some "%PDF-1.4 earlier output" :=
  have h := (output_untouched_before_writer plainToolkit sampleHost sampleFiles
    "missing.pdf" "out.pdf" 80 true true 6).1
  have h4 := h.2.2.2 "open missing.pdf: No such file or directory" rfl
  ⟨h4.1, by rw [h.1 h4.2]; rfl⟩

/-- C8, evaluated where the code breaks it: on a missing input file each
entry point returns false having acquired two native string buffers and
released none, while the document it constructed has been destroyed; on an
existing input both buffers are released. -/
theorem native_buffers_leak_on_error :
    ((Java_com_yourpackage_QPdfHelper_compressPdf plainToolkit sampleHost sampleFiles
        "missing.pdf" "out.pdf").ret = false ∧
      (Java_com_yourpackage_QPdfHelper_compressPdf plainToolkit sampleHost sampleFiles
        "missing.pdf" "out.pdf").env.acquired = ["out.pdf", "missing.pdf"] ∧
      (Java_com_yourpackage_QPdfHelper_compressPdf plainToolkit sampleHost sampleFiles
        "missing.pdf" "out.pdf").env.released = [] ∧
      liveDocuments (Java_com_yourpackage_QPdfHelper_compressPdf plainToolkit sampleHost
        sampleFiles "missing.pdf" "out.pdf").calls = 0) ∧
    ((Java_com_yourpackage_QPdfHelper_compressPdfAggressive plainToolkit sampleHost sampleFiles
        "missing.pdf" "out.pdf" 80).ret = false ∧
      (Java_com_yourpackage_QPdfHelper_compressPdfAggressive plainToolkit sampleHost sampleFiles
        "missing.pdf" "out.pdf" 80).env.acquired = ["out.pdf", "missing.pdf"] ∧
      (Java_com_yourpackage_QPdfHelper_compressPdfAggressive plainToolkit sampleHost sampleFiles
        "missing.pdf" "out.pdf" 80).env.released = []) ∧
    ((Java_com_yourpackage_QPdfHelper_compressPdfCustom plainToolkit sampleHost sampleFiles
        "missing.pdf" "out.pdf" true true 6).ret = false ∧
      (Java_com_yourpackage_QPdfHelper_compressPdfCustom plainToolkit sampleHost sampleFiles
        "missing.pdf" "out.pdf" true true 6).env.acquired = ["out.pdf", "missing.pdf"] ∧
      (Java_com_yourpackage_QPdfHelper_compressPdfCustom plainToolkit sampleHost sampleFiles
        "missing.pdf" "out.pdf" true true 6).env.released = []) ∧
    ((Java_com_yourpackage_QPdfHelper_compressPdf plainToolkit sampleHost sampleFiles
        "in.pdf" "out.pdf").ret = true ∧
      (Java_com_yourpackage_QPdfHelper_compressPdf plainToolkit sampleHost sampleFiles
        "in.pdf" "out.pdf").env.released = ["out.pdf", "in.pdf"]) := by
  decide

/-- C10, on the sample device: both calls succeed, and their setter calls
differ. -/
theorem compressPdfAggressive_eq_custom_with_both_flags_witness :
    (Java_com_yourpackage_QPdfHelper_compressPdfAggressive plainToolkit sampleHost sampleFiles
      "in.pdf" "out.pdf" 80).ret = true ∧
    (Java_com_yourpackage_QPdfHelper_compressPdfCustom plainToolkit sampleHost sampleFiles
      "in.pdf" "out.pdf" true true 6).ret = true ∧
    setterCalls (Java_com_yourpackage_QPdfHelper_compressPdfAggressive plainToolkit sampleHost
      sampleFiles "in.pdf" "out.pdf" 80).calls ≠
    setterCalls (Java_com_yourpackage_QPdfHelper_compressPdfCustom plainToolkit sampleHost
      sampleFiles "in.pdf" "out.pdf" true true 6).calls :=
  have h := compressPdfAggressive_eq_custom_with_both_flags plainToolkit sampleHost sampleFiles
    "in.pdf" "out.pdf" 80 6
  have hw := h.2.2.2.2.2.2.2 (by decide)
  ⟨by decide, h.1 ▸ (by decide), by rw [hw.1, hw.2]; decide⟩

end QpdfJni
